import Mathlib

/-!
# MEDICAL_APP_TN: risk flags, statistics and record store

A shallow embedding of `src/backend/server.js`.  The JavaScript of the request
handlers is transcribed function by function; the SQL text they send is given
its relational meaning over an explicit table of rows.
-/

namespace MedicalApp

/-! ## JavaScript string primitives used by the handlers -/

/-- The pieces of `cs` between occurrences of `sep`, as `String.prototype.split`
with a one-character separator produces them: always at least one piece. -/
def splitChars (sep : Char) : List Char → List (List Char)
  | [] => [[]]
  | c :: cs =>
    if c = sep then [] :: splitChars sep cs
    else
      match splitChars sep cs with
      | [] => [[c]]
      | p :: ps => (c :: p) :: ps

/-- JavaScript `s.split(sep)` for a one-character separator. -/
def jsSplit (s : String) (sep : Char) : List String :=
  (splitChars sep s.data).map String.mk

/-- Code points of `StrWhiteSpaceChar` (ECMAScript WhiteSpace and LineTerminator),
the characters `parseInt` skips at the start of its input. -/
def isStrWhiteSpace (c : Char) : Bool :=
  let n := c.toNat
  n = 0x09 || n = 0x0A || n = 0x0B || n = 0x0C || n = 0x0D || n = 0x20 ||
  n = 0xA0 || n = 0x1680 || (0x2000 ≤ n && n ≤ 0x200A) || n = 0x2028 ||
  n = 0x2029 || n = 0x202F || n = 0x205F || n = 0x3000 || n = 0xFEFF

/-- Value of `c` as a digit of the given radix, if it is one. -/
def digitValue (radix : Nat) (c : Char) : Option Nat :=
  let n := c.toNat
  let v : Option Nat :=
    if 48 ≤ n ∧ n ≤ 57 then some (n - 48)
    else if 97 ≤ n ∧ n ≤ 122 then some (n - 87)
    else if 65 ≤ n ∧ n ≤ 90 then some (n - 55)
    else none
  match v with
  | some d => if d < radix then some d else none
  | none => none

/-- The longest run of radix digits at the start of `cs`, as digit values. -/
def leadingDigits (radix : Nat) : List Char → List Nat
  | [] => []
  | c :: cs =>
    match digitValue radix c with
    | some d => d :: leadingDigits radix cs
    | none => []

/-- The number written by a list of digits, most significant first. -/
def digitsValue (radix : Nat) (ds : List Nat) : Nat :=
  ds.foldl (fun acc d => acc * radix + d) 0

/-- Steps 3 to the end of ECMAScript `parseInt` with no radix argument, on the
input already stripped of leading white space: `none` is `NaN`. -/
def parseIntTrimmed (cs : List Char) : Option Int :=
  let neg : Bool := match cs with
    | '-' :: _ => true
    | _ => false
  let body : List Char := match cs with
    | '-' :: r => r
    | '+' :: r => r
    | r => r
  let radix : Nat := match body with
    | '0' :: 'x' :: _ => 16
    | '0' :: 'X' :: _ => 16
    | _ => 10
  let rest : List Char := match body with
    | '0' :: 'x' :: r => r
    | '0' :: 'X' :: r => r
    | r => r
  match leadingDigits radix rest with
  | [] => none
  | d :: ds =>
    let m : Int := (digitsValue radix (d :: ds) : Nat)
    some (if neg then -m else m)

/-- JavaScript `parseInt(s)`: the integer written at the start of `s`, or `none`
for `NaN`.  The result is the exact integer; the double that JavaScript rounds
it to compares with 140 and with 90 the same way, both being doubles and the
rounding monotone. -/
def parseInt (s : String) : Option Int :=
  parseIntTrimmed (s.data.dropWhile isStrWhiteSpace)

/-- The argument conversion of `parseInt(x)` when `x` is an array element that
may be absent: `undefined` is converted to the text "undefined". -/
def parseIntArg : Option String → Option Int
  | some s => parseInt s
  | none => parseInt "undefined"

/-- JavaScript `x > k` for a number `x` that may be `NaN` (`none`). -/
def jsGt (x : Option Int) (k : Int) : Bool :=
  match x with
  | some v => decide (k < v)
  | none => false

/-! ## Rows of `medical_records` and the flag mapping of `/analysis` -/

/-- A row of the `medical_records` table as mysql2 hands it to the handlers.
The table declaration is not part of the repository; the column types follow
the data model: integer `id`, `user_id`, `age` and nullable integer
`cholesterol`, text `patient_name` and nullable text `blood_pressure`, `notes`,
and a nullable `date` kept as its ISO text (year-month-day). -/
structure Row where
  id : Nat
  user_id : Nat
  patient_name : String
  age : Int
  blood_pressure : Option String
  cholesterol : Option Int
  notes : Option String
  date : Option String
  deriving DecidableEq, Repr

/-- An exception thrown by the JavaScript of a handler. -/
inductive JsError where
  | typeError
  deriving DecidableEq, Repr

/-- ToBoolean of a field that holds text or `null`: `null` and the empty
string are falsy. -/
def truthyText : Option String → Bool
  | some s => decide (s ≠ "")
  | none => false

/-- The method call `x.split(sep)` on a field value: calling a method of `null`
throws a TypeError. -/
def callSplit (x : Option String) (sep : Char) : Except JsError (List String) :=
  match x with
  | some s => .ok (jsSplit s sep)
  | none => .error .typeError

/-- JavaScript `x > k` for a field holding a number or `null`; `null` converts
to 0. -/
def jsGtNullable (x : Option Int) (k : Int) : Bool :=
  match x with
  | some v => jsGt (some v) k
  | none => jsGt (some 0) k

/-- The expression `bp && parseInt(bp.split("/")[i]) > k` of the flag mapping,
reduced to its truthiness. -/
def bpPartExceeds (bp : Option String) (i : Nat) (k : Int) : Except JsError Bool :=
  if truthyText bp then do
    let parts ← callSplit bp '/'
    pure (jsGt (parseIntArg (parts.get? i)) k)
  else pure false

/-- The `flags` array of one entry of `risks` in `app.get("/analysis")`: three
conditional entries, then `.filter(Boolean)`. -/
def flags (r : Row) : Except JsError (List String) := do
  let chol : Option String :=
    if jsGtNullable r.cholesterol 200 then some "High Cholesterol" else none
  let sys ← bpPartExceeds r.blood_pressure 0 140
  let sysFlag : Option String := if sys then some "High Systolic BP" else none
  let dia ← bpPartExceeds r.blood_pressure 1 90
  let diaFlag : Option String := if dia then some "High Diastolic BP" else none
  pure (([chol, sysFlag, diaFlag].filter truthyText).filterMap id)

/-- One element of the `risks` array of the `/analysis` response. -/
structure RiskEntry where
  id : Nat
  patient_name : String
  cholesterol : Option Int
  blood_pressure : Option String
  date : Option String
  flags : List String
  deriving DecidableEq, Repr

/-- The callback of `risks.map` in `app.get("/analysis")`. -/
def riskEntry (r : Row) : Except JsError RiskEntry := do
  let fl ← flags r
  pure { id := r.id, patient_name := r.patient_name, cholesterol := r.cholesterol,
         blood_pressure := r.blood_pressure, date := r.date, flags := fl }

/-! ## The SQL of the statistics and analysis queries -/

/-- The table `medical_records` and its AUTO_INCREMENT counter. -/
structure Db where
  rows : List Row
  nextId : Nat
  deriving DecidableEq, Repr

/-- SQL `SUBSTRING_INDEX(s, delim, count)` for a one-character delimiter: the
text before the `count`-th delimiter counted from the left when `count` is
positive, the text after the `count`-th delimiter counted from the right when it
is negative, all of `s` when there are fewer delimiters. -/
def substringIndex (s : String) (delim : Char) (count : Int) : String :=
  let parts := splitChars delim s.data
  let sel :=
    if 0 ≤ count then parts.take count.toNat
    else parts.drop (parts.length - count.natAbs)
  String.mk (List.intercalate [delim] sel)

/-- SQL `CAST(s AS UNSIGNED)` of a string in MySQL: leading blanks and tabs are
skipped, an optional sign and the leading decimal digits are read, and anything
after them is dropped; no digits give 0.  The value is a 64-bit unsigned
integer: a negative number wraps to its two's complement, and numbers out of
range saturate. -/
def castUnsigned (s : String) : Nat :=
  let cs := s.data.dropWhile (fun c => c = ' ' || c = '\t')
  let neg : Bool := match cs with
    | '-' :: _ => true
    | _ => false
  let body : List Char := match cs with
    | '-' :: r => r
    | '+' :: r => r
    | r => r
  let m := digitsValue 10 (leadingDigits 10 body)
  if neg then
    (if m ≤ 2 ^ 63 then (2 ^ 64 - m) % 2 ^ 64 else 2 ^ 63)
  else
    (if m < 2 ^ 64 then m else 2 ^ 64 - 1)

/-- SQL `x > k` in three-valued logic: NULL when `x` is NULL. -/
def sqlGt {α : Type} [LT α] [DecidableRel (fun a b : α => a < b)]
    (x : Option α) (k : α) : Option Bool :=
  x.map (fun v => decide (k < v))

/-- SQL `a OR b` in three-valued logic. -/
def sqlOr : Option Bool → Option Bool → Option Bool
  | some true, _ => some true
  | _, some true => some true
  | some false, some false => some false
  | _, _ => none

/-- SQL `a AND b` in three-valued logic. -/
def sqlAnd : Option Bool → Option Bool → Option Bool
  | some false, _ => some false
  | _, some false => some false
  | some true, some true => some true
  | _, _ => none

/-- A `WHERE` clause keeps the rows whose condition is TRUE (not FALSE, not
NULL). -/
def sqlWhere (cond : Row → Option Bool) (rows : List Row) : List Row :=
  rows.filter (fun r => cond r == some true)

/-- SQL `CASE WHEN c THEN v END`: NULL unless `c` is TRUE. -/
def caseWhen {α : Type} (c : Option Bool) (v : α) : Option α :=
  if c = some true then some v else none

/-- SQL `COUNT(expr)`: the number of rows where `expr` is not NULL. -/
def sqlCount {α : Type} (col : List (Option α)) : Nat :=
  (col.filter Option.isSome).length

/-- The quotient `sum / count` as the server's `AVG` gives it for an integer
column: a decimal of four fractional digits (the scale of the argument plus
the default `div_precision_increment` of 4), rounded half away from zero. -/
def decimalMean (sum : Int) (count : Nat) : ℚ :=
  let q : Nat := (2 * sum.natAbs * 10000 + count) / (2 * count)
  if 0 ≤ sum then ((q : Int) : ℚ) / 10000 else ((-(q : Int) : Int) : ℚ) / 10000

/-- SQL `AVG(expr)` over an integer column: the mean of the values that are not
NULL, as a decimal of four fractional digits, and NULL when there are none. -/
def sqlAvg (col : List (Option Int)) : Option ℚ :=
  match col.filterMap id with
  | [] => none
  | v :: vs => some (decimalMean (v :: vs).sum (v :: vs).length)

/-- SQL `MIN(expr)`: the least value that is not NULL. -/
def sqlMin (col : List (Option Int)) : Option Int :=
  match col.filterMap id with
  | [] => none
  | v :: vs => some (vs.foldl min v)

/-- SQL `MAX(expr)`: the greatest value that is not NULL. -/
def sqlMax (col : List (Option Int)) : Option Int :=
  match col.filterMap id with
  | [] => none
  | v :: vs => some (vs.foldl max v)

/-- The expression `CAST(SUBSTRING_INDEX(blood_pressure, '/', count) AS UNSIGNED)`
on a row; NULL when the blood pressure is NULL. -/
def bpPartSql (r : Row) (count : Int) : Option Nat :=
  r.blood_pressure.map (fun s => castUnsigned (substringIndex s '/' count))

/-- The condition `user_id = ?` of every query of the handlers. -/
def ownedBy (uid : Nat) (r : Row) : Option Bool :=
  some (decide (r.user_id = uid))

/-- The order of `ORDER BY date DESC` on two rows: NULL is the lowest value, so
it comes last in descending order; two dates compare as their ISO texts do,
character by character. -/
def dateDesc (a b : Row) : Bool :=
  match a.date, b.date with
  | _, none => true
  | none, some _ => false
  | some x, some y => !decide (x.data < y.data)

/-- The row of statistics answered by `/dashboard/stats`. -/
structure DashboardStats where
  total_records : Nat
  avg_age : Option ℚ
  avg_cholesterol : Option ℚ
  high_cholesterol_count : Nat
  high_bp_count : Nat
  deriving DecidableEq, Repr

/-- The query of `app.get("/dashboard/stats")`; aggregates without GROUP BY
give one row, also over no rows. -/
def dashboardStats (db : Db) (uid : Nat) : DashboardStats :=
  let rs := sqlWhere (ownedBy uid) db.rows
  { total_records := rs.length
    avg_age := sqlAvg (rs.map (fun r => some r.age))
    avg_cholesterol := sqlAvg (rs.map (fun r => r.cholesterol))
    high_cholesterol_count :=
      sqlCount (rs.map (fun r => caseWhen (sqlGt r.cholesterol 200) (1 : Nat)))
    high_bp_count :=
      sqlCount (rs.map (fun r => caseWhen (sqlGt (bpPartSql r 1) 140) (1 : Nat))) }

/-- The `stats` row of the `/analysis` response. -/
structure AnalysisStats where
  avg_age : Option ℚ
  avg_chol : Option ℚ
  min_chol : Option Int
  max_chol : Option Int
  total_count : Nat
  deriving DecidableEq, Repr

/-- The first query of `app.get("/analysis")`. -/
def analysisStats (db : Db) (uid : Nat) : AnalysisStats :=
  let rs := sqlWhere (ownedBy uid) db.rows
  { avg_age := sqlAvg (rs.map (fun r => some r.age))
    avg_chol := sqlAvg (rs.map (fun r => r.cholesterol))
    min_chol := sqlMin (rs.map (fun r => r.cholesterol))
    max_chol := sqlMax (rs.map (fun r => r.cholesterol))
    total_count := rs.length }

/-- The condition of the risk query of `/analysis`:
`user_id = ? AND (cholesterol > 200 OR CAST(.. 1 ..) > 140 OR CAST(.. -1 ..) > 90)`. -/
def riskCondition (uid : Nat) (r : Row) : Option Bool :=
  sqlAnd (ownedBy uid r)
    (sqlOr (sqlOr (sqlGt r.cholesterol 200) (sqlGt (bpPartSql r 1) 140))
      (sqlGt (bpPartSql r (-1)) 90))

/-- The second query of `app.get("/analysis")`: the rows at risk, `ORDER BY date
DESC`.  SQL leaves the order of rows with equal dates open; here they keep
their table order. -/
def riskQuery (db : Db) (uid : Nat) : List Row :=
  (sqlWhere (riskCondition uid) db.rows).insertionSort (fun a b => dateDesc a b = true)

/-- The body of the `/analysis` response. -/
structure AnalysisResponse where
  stats : AnalysisStats
  risks : List RiskEntry
  deriving DecidableEq, Repr

/-- The handler `app.get("/analysis")` for the authenticated user `uid`. -/
def analysis (db : Db) (uid : Nat) : Except JsError AnalysisResponse := do
  let stats := analysisStats db uid
  let risks ← (riskQuery db uid).mapM riskEntry
  pure { stats := stats, risks := risks }

/-! ## The conditions behind the three flags -/

/-- The first flag condition, `r.cholesterol > 200`, on a stored value. -/
def highCholesterol (r : Row) : Bool :=
  match r.cholesterol with
  | some c => decide (200 < c)
  | none => false

/-- The systolic value the flag mapping compares with 140:
`parseInt(r.blood_pressure.split("/")[0])`, `none` when it is `NaN` or there is
no blood pressure. -/
def jsSystolic (r : Row) : Option Int :=
  match r.blood_pressure with
  | some s => parseIntArg ((jsSplit s '/').get? 0)
  | none => none

/-- The diastolic value the flag mapping compares with 90:
`parseInt(r.blood_pressure.split("/")[1])`, `none` when it is `NaN` or there is
no blood pressure. -/
def jsDiastolic (r : Row) : Option Int :=
  match r.blood_pressure with
  | some s => parseIntArg ((jsSplit s '/').get? 1)
  | none => none

/-- The three flag names, each paired with whether its condition holds for the
row, in the order the response lists them. -/
def flagTable (r : Row) : List (String × Bool) :=
  [("High Cholesterol", highCholesterol r),
   ("High Systolic BP", jsGt (jsSystolic r) 140),
   ("High Diastolic BP", jsGt (jsDiastolic r) 90)]

/-- The names of `flagTable` whose condition holds. -/
def selectedFlags (r : Row) : List String :=
  ((flagTable r).filter (fun p => p.2)).map (fun p => p.1)

/-- The element `risks.map` builds from a row once its flags are known. -/
def entryOf (r : Row) (fl : List String) : RiskEntry :=
  { id := r.id, patient_name := r.patient_name, cholesterol := r.cholesterol,
    blood_pressure := r.blood_pressure, date := r.date, flags := fl }

/-! ## Request bodies and the record handlers -/

/-- A value of a JSON request body as the handlers see it: a property may be
missing (`undefined`), `null`, a boolean, a number (a double, given by its
exact value), a string, an array, of which the number of elements is kept, or
an object that is not an array and has no property `length`. -/
inductive JsVal where
  | undefined
  | null
  | bool (b : Bool)
  | num (q : ℚ)
  | str (s : String)
  | array (length : Nat)
  | object
  deriving DecidableEq, Repr

/-- ToBoolean: what `!v` and `v || w` test. -/
def truthy : JsVal → Bool
  | .undefined => false
  | .null => false
  | .bool b => b
  | .num q => decide (q ≠ 0)
  | .str s => decide (s ≠ "")
  | .array _ => true
  | .object => true

/-- The expression `v || null`. -/
def orNull (v : JsVal) : JsVal :=
  if truthy v then v else .null

/-- The fields `app.post("/records")` reads from `req.body`. -/
structure RecordBody where
  patient_name : JsVal
  age : JsVal
  blood_pressure : JsVal
  cholesterol : JsVal
  notes : JsVal
  date : JsVal
  deriving DecidableEq, Repr

/-- What a handler sends as JSON. -/
inductive Payload where
  | message (text : String)
  | created (id : Nat) (text : String)
  | record (row : Row)
  deriving DecidableEq, Repr

/-- An HTTP answer: status code and JSON body (`res.json` alone answers 200). -/
structure Response where
  status : Nat
  body : Payload
  deriving DecidableEq, Repr

/-- The integer written by `s` when `s` is an optional minus sign followed by
decimal digits only. -/
def decimalInt (s : String) : Option Int :=
  let neg : Bool := match s.data with
    | '-' :: _ => true
    | _ => false
  let body : List Char := match s.data with
    | '-' :: r => r
    | r => r
  let ds := leadingDigits 10 body
  if ds.length = body.length ∧ body ≠ [] then
    some (if neg then -((digitsValue 10 ds : Nat) : Int) else ((digitsValue 10 ds : Nat) : Int))
  else none

/-- Modelled from the spec: the integer columns of `medical_records`, whose
declaration is not in the repository.  A bound value enters an integer column
as itself when it is `null`, an integral number or a string of decimal digits;
the outer `none` stands for a statement the server does not carry out, which
is also how every other value is treated here. -/
def toIntColumn : JsVal → Option (Option Int)
  | .null => some none
  | .num q => if q.den = 1 then some (some q.num) else none
  | .str s => (decimalInt s).map some
  | _ => none

/-- Modelled from the spec: the text and date columns of `medical_records`,
whose declaration is not in the repository.  A bound value enters such a column
as itself when it is `null` or a string; the outer `none` stands for a statement
the server does not carry out, which is also how every other value is treated
here. -/
def toTextColumn : JsVal → Option (Option String)
  | .null => some none
  | .str s => some (some s)
  | _ => none

/-- The statement `INSERT INTO medical_records (patient_name, age,
blood_pressure, cholesterol, notes, date, user_id) VALUES (?, ?, ?, ?, ?, ?, ?)`:
the new row takes the next AUTO_INCREMENT id, which is the `insertId` reported
back.  `patient_name` and `age` hold no NULL. -/
def insertRecord (db : Db) (patient_name age blood_pressure cholesterol notes date : JsVal)
    (uid : Nat) : Option (Nat × Db) :=
  match toTextColumn patient_name, toIntColumn age, toTextColumn blood_pressure,
      toIntColumn cholesterol, toTextColumn notes, toTextColumn date with
  | some (some nm), some (some ag), some bp, some ch, some nt, some dt =>
    let row : Row :=
      { id := db.nextId, user_id := uid, patient_name := nm, age := ag,
        blood_pressure := bp, cholesterol := ch, notes := nt, date := dt }
    some (db.nextId, { rows := db.rows ++ [row], nextId := db.nextId + 1 })
  | _, _, _, _, _, _ => none

/-- The handler `app.post("/records")` for the authenticated user `uid`: the
answer and the table afterwards. -/
def postRecords (db : Db) (uid : Nat) (b : RecordBody) : Response × Db :=
  if !truthy b.patient_name || !truthy b.age then
    ({ status := 400, body := .message "Patient name and age are required" }, db)
  else
    match insertRecord db b.patient_name b.age (orNull b.blood_pressure)
        (orNull b.cholesterol) (orNull b.notes) (orNull b.date) uid with
    | none => ({ status := 500, body := .message "Error creating record" }, db)
    | some (id, db') =>
      ({ status := 200, body := .created id "Record created successfully" }, db')

/-- The handler `app.get("/records/:id")` for the authenticated user `uid`:
`SELECT * FROM medical_records WHERE id = ? AND user_id = ?`, then the first
row or 404.  The path parameter is taken as the number it writes. -/
def getRecord (db : Db) (uid : Nat) (id : Nat) : Response :=
  match sqlWhere (fun r => sqlAnd (some (decide (r.id = id))) (ownedBy uid r)) db.rows with
  | [] => { status := 404, body := .message "Record not found" }
  | r :: _ => { status := 200, body := .record r }

/-- The table is consistent with its AUTO_INCREMENT counter: every stored id is
below the next id to be assigned. -/
def Db.WF (db : Db) : Prop :=
  ∀ r ∈ db.rows, r.id < db.nextId

/-- A record as a client means it: the two required fields and the four
optional ones, each optional one either left out or given. -/
structure RecordInput where
  patient_name : String
  age : Int
  blood_pressure : Option String
  cholesterol : Option Int
  notes : Option String
  date : Option String
  deriving DecidableEq, Repr

/-- An optional text field in a request body: left out when absent. -/
def optText : Option String → JsVal
  | some s => .str s
  | none => .undefined

/-- An optional number field in a request body: left out when absent. -/
def optNum : Option Int → JsVal
  | some n => .num n
  | none => .undefined

/-- The request body that carries a record. -/
def RecordInput.toBody (i : RecordInput) : RecordBody :=
  { patient_name := .str i.patient_name, age := .num i.age,
    blood_pressure := optText i.blood_pressure, cholesterol := optNum i.cholesterol,
    notes := optText i.notes, date := optText i.date }

/-- Follows the spec's words: a patient name that is empty or missing. -/
def nameEmptyOrMissing (v : JsVal) : Prop :=
  v = .undefined ∨ v = .null ∨ v = .str ""

/-- Follows the spec's words: an age that is missing or not a positive number,
a number being a JSON number or the decimal string a form sends. -/
def ageMissingOrNotPositive (v : JsVal) : Prop :=
  match v with
  | .num q => q ≤ 0
  | .str s =>
    match decimalInt s with
    | some n => n ≤ 0
    | none => True
  | _ => True

/-- An optional text with the empty string read as absent. -/
def nonEmptyText : Option String → Option String
  | some s => if s = "" then none else some s
  | none => none

/-! ## Updating, deleting and listing records -/

/-- The condition `id = ? AND user_id = ?` of the single-record statements,
as the rows it holds for. -/
def hitsRecord (id uid : Nat) (r : Row) : Bool :=
  sqlAnd (some (decide (r.id = id))) (ownedBy uid r) == some true

/-- The statement `UPDATE medical_records SET patient_name=?, age=?,
blood_pressure=?, cholesterol=?, notes=?, date=? WHERE id=? AND user_id=?`: the
number of affected rows and the table afterwards.  The driver connects with
its default flags, under which `affectedRows` counts the rows the WHERE clause
matches.  Values are converted when they are assigned, so nothing is converted
when no row matches. -/
def updateRecord (db : Db) (patient_name age blood_pressure cholesterol notes date : JsVal)
    (id uid : Nat) : Option (Nat × Db) :=
  match db.rows.filter (hitsRecord id uid) with
  | [] => some (0, db)
  | m :: ms =>
    match toTextColumn patient_name, toIntColumn age, toTextColumn blood_pressure,
        toIntColumn cholesterol, toTextColumn notes, toTextColumn date with
    | some (some nm), some (some ag), some bp, some ch, some nt, some dt =>
      some ((m :: ms).length,
        { rows := db.rows.map (fun r =>
            if hitsRecord id uid r then
              { id := r.id, user_id := r.user_id, patient_name := nm, age := ag,
                blood_pressure := bp, cholesterol := ch, notes := nt, date := dt }
            else r),
          nextId := db.nextId })
    | _, _, _, _, _, _ => none

/-- The handler `app.put("/records/:id")` for the authenticated user `uid`. -/
def putRecord (db : Db) (uid id : Nat) (b : RecordBody) : Response × Db :=
  if !truthy b.patient_name || !truthy b.age then
    ({ status := 400, body := .message "Patient name and age are required" }, db)
  else
    match updateRecord db b.patient_name b.age (orNull b.blood_pressure)
        (orNull b.cholesterol) (orNull b.notes) (orNull b.date) id uid with
    | none => ({ status := 500, body := .message "Error updating record" }, db)
    | some (affected, db') =>
      if affected = 0 then
        ({ status := 404, body := .message "Record not found or unauthorized" }, db')
      else ({ status := 200, body := .message "Record updated successfully" }, db')

/-- The statement `DELETE FROM medical_records WHERE id=? AND user_id=?`: the
number of affected rows and the table afterwards. -/
def deleteStatement (db : Db) (id uid : Nat) : Nat × Db :=
  ((db.rows.filter (hitsRecord id uid)).length,
    { rows := db.rows.filter (fun r => !hitsRecord id uid r), nextId := db.nextId })

/-- The handler `app.delete("/records/:id")` for the authenticated user `uid`. -/
def deleteRecord (db : Db) (uid id : Nat) : Response × Db :=
  match deleteStatement db id uid with
  | (affected, db') =>
    if affected = 0 then
      ({ status := 404, body := .message "Record not found or unauthorized" }, db')
    else ({ status := 200, body := .message "Record deleted successfully" }, db')

/-- The data model's invariant that `id` is unique across all records. -/
def Db.UniqueIds (db : Db) : Prop :=
  (db.rows.map (fun r => r.id)).Nodup

/-- Modelled from the spec: the collation of the text columns of
`medical_records`, whose declaration is not in the repository, compares
without regard to case; letters are folded to lower case before they are
compared. -/
def foldCase (c : Char) : Char :=
  c.toLower

/-- SQL `text LIKE pattern` on character lists: `%` stands for any run of
characters, `_` for any one character, a backslash takes the next pattern
character literally, and every other character stands for itself up to
case. -/
def likeMatch : List Char → List Char → Bool
  | [], t => t.isEmpty
  | '%' :: p, t => t.tails.any (fun u => likeMatch p u)
  | '_' :: p, t =>
    match t with
    | [] => false
    | _ :: u => likeMatch p u
  | '\\' :: c :: p, t =>
    match t with
    | [] => false
    | x :: u => foldCase x == foldCase c && likeMatch p u
  | c :: p, t =>
    match t with
    | [] => false
    | x :: u => foldCase x == foldCase c && likeMatch p u

/-- SQL `col LIKE ?` in three-valued logic: NULL when the column is NULL. -/
def sqlLike (col : Option String) (pattern : String) : Option Bool :=
  col.map (fun t => likeMatch pattern.data t.data)

/-- The WHERE clause of `app.get("/records")`: `user_id = ?`, and with a truthy
`search` also `(patient_name LIKE ? OR notes LIKE ?)`, both patterns being the
search text between two `%`. -/
def listCondition (uid : Nat) (search : Option String) (r : Row) : Option Bool :=
  if truthyText search then
    match search with
    | some s =>
      sqlAnd (ownedBy uid r)
        (sqlOr (sqlLike (some r.patient_name) ("%" ++ s ++ "%"))
          (sqlLike r.notes ("%" ++ s ++ "%")))
    | none => ownedBy uid r
  else ownedBy uid r

/-- The order of `ORDER BY date DESC, id DESC` on two rows: a later date first,
NULL dates last, and the greater id first among equal dates. -/
def listOrder (a b : Row) : Bool :=
  dateDesc a b && (!dateDesc b a || decide (b.id ≤ a.id))

/-- The handler `app.get("/records")` for the authenticated user `uid`; `search`
is the query parameter, absent or a string. -/
def listRecords (db : Db) (uid : Nat) (search : Option String) : List Row :=
  (sqlWhere (listCondition uid search) db.rows).insertionSort
    (fun a b => listOrder a b = true)

/-- Follows the spec's words: `text` contains `s` as a substring, compared
case-insensitively. -/
def containsIgnoringCase (text s : String) : Bool :=
  (text.data.map foldCase).tails.any (fun u => (s.data.map foldCase).isPrefixOf u)

/-- Follows the spec's words: the record's `patient_name` or `notes` contains
the search text. -/
def matchesSearchText (s : String) (r : Row) : Bool :=
  containsIgnoringCase r.patient_name s ||
    (match r.notes with
     | some n => containsIgnoringCase n s
     | none => false)

/-! ## Authentication and registration -/

/-- The payload `login` signs into a token and `jwt.verify` gives back. -/
structure TokenClaims where
  id : Nat
  username : String
  deriving DecidableEq, Repr

/-- What the `authenticate` middleware does with a request: it answers itself,
or it sets `req.user` and calls `next()`. -/
inductive AuthResult where
  | answered (status : Nat) (message : String)
  | next (user : TokenClaims)
  deriving DecidableEq, Repr

/-- The middleware `authenticate`.  `authorization` is the request header,
absent or a string; `verify` stands for `jwt.verify(token, JWT_SECRET)` of the
jsonwebtoken library, `none` when it throws. -/
def authenticate (verify : String → Option TokenClaims) (authorization : Option String) :
    AuthResult :=
  let token : Option String :=
    match authorization with
    | some h => (jsSplit h ' ').get? 1
    | none => none
  if truthyText token then
    match token with
    | some t =>
      match verify t with
      | some decoded => .next decoded
      | none => .answered 401 "Invalid or expired token"
    | none => .answered 401 "No token provided"
  else .answered 401 "No token provided"

/-- A row of the `users` table. -/
structure User where
  id : Nat
  username : String
  password : String
  deriving DecidableEq, Repr

/-- Follows the spec's words: the credential resolves to an existing user. -/
def resolvesToUser (users : List User) (claims : TokenClaims) : Prop :=
  ∃ u ∈ users, u.id = claims.id

/-- The property `length` of a JavaScript string: its number of UTF-16 code
units, two for a character outside the basic plane. -/
def jsLength (s : String) : Nat :=
  (s.data.map (fun c => if c.toNat < 0x10000 then 1 else 2)).sum

/-- The fields `app.post("/register")` reads from `req.body`. -/
structure RegisterBody where
  username : JsVal
  password : JsVal
  deriving DecidableEq, Repr

/-- The expression `password.length < 6` on a truthy value: the `length` of a
string is its number of code units and that of an array its number of
elements; a number, `true` or an object has none, and `undefined < 6` is
false. -/
def lengthBelow (v : JsVal) (k : Nat) : Bool :=
  match v with
  | .str s => decide (jsLength s < k)
  | .array n => decide (n < k)
  | _ => false

/-- How far `app.post("/register")` gets before it touches the table: it
answers on its own, or it issues the INSERT with the username and the hashed
password. -/
inductive RegisterStep where
  | answer (response : Response)
  | insert (username : JsVal) (hashed : String)
  deriving DecidableEq, Repr

/-- The handler `app.post("/register")` up to its `db.query` call.  `hash`
stands for `bcrypt.hash(password, 10)`, which rejects anything but a string;
the rejection is caught and answered with 500. -/
def registerStep (hash : String → String) (b : RegisterBody) : RegisterStep :=
  if !truthy b.username || !truthy b.password then
    .answer { status := 400, body := .message "Username and password required" }
  else if lengthBelow b.password 6 then
    .answer { status := 400, body := .message "Password must be at least 6 characters" }
  else
    match b.password with
    | .str s => .insert b.username (hash s)
    | _ => .answer { status := 500, body := .message "Server error" }

/-- Modelled from the spec: the `users` table, whose declaration is not in the
repository; the handler's ER_DUP_ENTRY case shows that `username` is unique.
The statement `INSERT INTO users (username, password) VALUES (?, ?)` answers 409
on a username already present, 500 on a value that is no text, and otherwise
adds the user under a new id. -/
def insertUser (users : List User) (username : JsVal) (hashed : String) :
    Response × List User :=
  match toTextColumn username with
  | some (some name) =>
    if users.any (fun u => u.username.data.map foldCase == name.data.map foldCase) then
      ({ status := 409, body := .message "Username already exists" }, users)
    else
      ({ status := 200, body := .message "User created successfully" },
        users ++ [{ id := (users.map (fun u => u.id)).foldl max 0 + 1, username := name,
                    password := hashed }])
  | _ => ({ status := 500, body := .message "Error creating user" }, users)

/-- The handler `app.post("/register")`: the answer and the `users` table
afterwards. -/
def register (hash : String → String) (users : List User) (b : RegisterBody) :
    Response × List User :=
  match registerStep hash b with
  | .answer r => (r, users)
  | .insert username hashed => insertUser users username hashed

/-! ## The client-side filter of `App.js` -/

/-- JavaScript `s.trim()`: white space removed at both ends. -/
def jsTrim (s : String) : String :=
  String.mk ((s.data.dropWhile isStrWhiteSpace).reverse.dropWhile isStrWhiteSpace).reverse

/-- JavaScript `text.includes(query)`: `query` occurs in `text`. -/
def jsIncludes (text query : String) : Bool :=
  text.data.tails.any (fun u => query.data.isPrefixOf u)

/-- The method call `x.toLowerCase()` on a field value: calling a method of
`null` throws a TypeError.  `lower` stands for the lower-casing of strings. -/
def callToLowerCase (lower : String → String) (x : Option String) : Except JsError String :=
  match x with
  | some s => .ok (lower s)
  | none => .error .typeError

/-- The callback of `allRecords.filter` in `Records`, reduced to the truthiness
of what it returns. -/
def recordMatches (lower : String → String) (searchQuery : String) (r : Row) :
    Except JsError Bool :=
  if !truthyText (some (jsTrim searchQuery)) then pure true
  else do
    let query := lower searchQuery
    let name ← callToLowerCase lower (some r.patient_name)
    if jsIncludes name query then pure true
    else if truthyText r.notes then do
      let notes ← callToLowerCase lower r.notes
      pure (jsIncludes notes query)
    else pure false

/-- The method `Array.prototype.filter` with a callback that may throw. -/
def filterExcept {α : Type} (p : α → Except JsError Bool) : List α → Except JsError (List α)
  | [] => pure []
  | a :: l => do
    let keep ← p a
    let rest ← filterExcept p l
    pure (if keep then a :: rest else rest)

/-- The value `filteredRecords` of the `Records` component. -/
def filteredRecords (lower : String → String) (allRecords : List Row) (searchQuery : String) :
    Except JsError (List Row) :=
  filterExcept (recordMatches lower searchQuery) allRecords

/-! ## The risk lines of the PDF report -/

/-- A JavaScript number as `Number(text)` yields it: `NaN`, an infinity, or the
double nearest to the value `mantissa * 10 ^ exp10` the text writes.  The
written value is kept exact here; the rounding to the nearest double is done
where the number is compared. -/
inductive JsNumber where
  | nan
  | infinite (negative : Bool)
  | finite (mantissa : Int) (exp10 : Int)
  deriving DecidableEq, Repr

/-- Whether `c` is a decimal digit. -/
def isDecimalDigit (c : Char) : Bool :=
  (digitValue 10 c).isSome

/-- The `StrDecimalLiteral` part of StringToNumber on trimmed, non-empty text:
an optional sign, then `Infinity` or digits with an optional fraction and an
optional exponent, and nothing after them. -/
def parseDecimalLiteral (cs : List Char) : JsNumber :=
  let neg : Bool := match cs with
    | '-' :: _ => true
    | _ => false
  let body : List Char := match cs with
    | '-' :: r => r
    | '+' :: r => r
    | r => r
  if body = "Infinity".data then .infinite neg
  else
    let intPart := body.takeWhile isDecimalDigit
    let afterInt := body.dropWhile isDecimalDigit
    let fracPart : List Char := match afterInt with
      | '.' :: r => r.takeWhile isDecimalDigit
      | _ => []
    let afterFrac : List Char := match afterInt with
      | '.' :: r => r.dropWhile isDecimalDigit
      | r => r
    if intPart = [] ∧ fracPart = [] then .nan
    else
      let m : Int := (digitsValue 10 (leadingDigits 10 (intPart ++ fracPart)) : Nat)
      let mantissa : Int := if neg then -m else m
      match afterFrac with
      | [] => .finite mantissa (-(fracPart.length : Int))
      | e :: r =>
        if e = 'e' ∨ e = 'E' then
          let eneg : Bool := match r with
            | '-' :: _ => true
            | _ => false
          let ebody : List Char := match r with
            | '-' :: t => t
            | '+' :: t => t
            | t => t
          if ebody = [] ∨ ebody.dropWhile isDecimalDigit ≠ [] then .nan
          else
            let ev : Int := (digitsValue 10 (leadingDigits 10 ebody) : Nat)
            .finite mantissa ((if eneg then -ev else ev) - (fracPart.length : Int))
        else .nan

/-- An unsigned literal of radix 2, 8 or 16 after its two-character mark: all
of the text must be digits of the radix, and there must be one at least. -/
def parseRadixLiteral (radix : Nat) (cs : List Char) : JsNumber :=
  let ds := leadingDigits radix cs
  if cs ≠ [] ∧ ds.length = cs.length then .finite (digitsValue radix ds : Nat) 0 else .nan

/-- JavaScript `Number(s)` on a string: white space is trimmed at both ends, the
empty text is 0, and the rest must be one whole numeric literal, or the result
is `NaN`. -/
def jsNumber (s : String) : JsNumber :=
  match (jsTrim s).data with
  | [] => .finite 0 0
  | '0' :: 'x' :: r => parseRadixLiteral 16 r
  | '0' :: 'X' :: r => parseRadixLiteral 16 r
  | '0' :: 'o' :: r => parseRadixLiteral 8 r
  | '0' :: 'O' :: r => parseRadixLiteral 8 r
  | '0' :: 'b' :: r => parseRadixLiteral 2 r
  | '0' :: 'B' :: r => parseRadixLiteral 2 r
  | cs => parseDecimalLiteral cs

/-- The position of the highest set bit of `n`, for `n` below 2 ^ 64; 0 for 0. -/
def floorLog2 : Nat → Nat → Nat
  | 0, _ => 0
  | fuel + 1, n => if n < 2 then 0 else floorLog2 fuel (n / 2) + 1

/-- JavaScript `x > k` for a number `x` and a natural number `k` below 2 ^ 53,
which is a double.  The written value of `x` is rounded to the nearest double,
ties to the even significand, so the double exceeds `k` exactly when the
written value exceeds the midpoint `k + 2 ^ (-j)` between `k` and the next
double above it, or equals that midpoint while the significand of `k` is odd.
Both sides are scaled to integers before they are compared. -/
def JsNumber.gt (x : JsNumber) (k : Nat) : Bool :=
  match x with
  | .nan => false
  | .infinite negative => !negative
  | .finite m e =>
    let j : Nat := if k = 0 then 1075 else 53 - floorLog2 64 k
    let oddSignificand : Bool :=
      if k = 0 then false else decide (k * 2 ^ (52 - floorLog2 64 k) % 2 = 1)
    let lhs : Int := if 0 ≤ e then m * 10 ^ e.toNat * 2 ^ j else m * 2 ^ j
    let rhs : Int :=
      if 0 ≤ e then ((k * 2 ^ j + 1 : Nat) : Int)
      else ((k * 2 ^ j + 1 : Nat) : Int) * 10 ^ (-e).toNat
    decide (rhs < lhs) || (oddSignificand && decide (lhs = rhs))

/-- JavaScript `x > k` for a destructured array element, `undefined` (which
converts to `NaN`) when the array is too short. -/
def elementGt (x : Option JsNumber) (k : Nat) : Bool :=
  match x with
  | some v => v.gt k
  | none => false

/-- The array `risks` of `app.get("/pdf/:id")`: the lines its Risk Assessment
section prints for the record. -/
def pdfRisks (r : Row) : Except JsError (List String) := do
  let chol : List String :=
    if jsGtNullable r.cholesterol 200 then ["⚠ High Cholesterol (>200 mg/dL)"] else []
  if truthyText r.blood_pressure then
    let parts ← callSplit r.blood_pressure '/'
    let numbers := parts.map jsNumber
    let sys : List String :=
      if elementGt (numbers.get? 0) 140 then ["⚠ High Systolic Blood Pressure (>140)"] else []
    let dia : List String :=
      if elementGt (numbers.get? 1) 90 then ["⚠ High Diastolic Blood Pressure (>90)"] else []
    pure (chol ++ sys ++ dia)
  else pure chol

/-- The condition a flag of `/analysis` or a risk line of the PDF report names. -/
inductive RiskKind where
  | cholesterol
  | systolic
  | diastolic
  deriving DecidableEq, Repr

/-- The condition named by a flag of the `/analysis` response. -/
def flagKind (name : String) : Option RiskKind :=
  if name = "High Cholesterol" then some .cholesterol
  else if name = "High Systolic BP" then some .systolic
  else if name = "High Diastolic BP" then some .diastolic
  else none

/-- The condition named by a risk line of the PDF report. -/
def pdfLineKind (line : String) : Option RiskKind :=
  if line = "⚠ High Cholesterol (>200 mg/dL)" then some .cholesterol
  else if line = "⚠ High Systolic Blood Pressure (>140)" then some .systolic
  else if line = "⚠ High Diastolic Blood Pressure (>90)" then some .diastolic
  else none

/-- The three single-record handlers find nothing for user `a` under `id`:
get and delete answer 404, update never answers 200 and answers 404 whenever
its body passes the validation, and the table stays as it is. -/
def notFoundEverywhere (db : Db) (a id : Nat) (body : RecordBody) : Prop :=
  getRecord db a id = { status := 404, body := .message "Record not found" } ∧
  deleteRecord db a id =
    ({ status := 404, body := .message "Record not found or unauthorized" }, db) ∧
  (putRecord db a id body).2 = db ∧
  (putRecord db a id body).1.status ≠ 200 ∧
  (truthy body.patient_name = true → truthy body.age = true →
    putRecord db a id body =
      ({ status := 404, body := .message "Record not found or unauthorized" }, db))

/-! ## The "High Risk" card and the CSV export -/

/-- The number on the "High Risk" card of `DashboardStats` in `App.js`:
`(stats?.high_cholesterol_count || 0) + (stats?.high_bp_count || 0)`, where
`stats` is `null` until the statistics have been fetched. -/
def highRiskCard (stats : Option DashboardStats) : Nat :=
  let orZero : Option Nat → Nat := fun v =>
    match v with
    | some n => if n ≠ 0 then n else 0
    | none => 0
  orZero (stats.map (fun st => st.high_cholesterol_count)) +
    orZero (stats.map (fun st => st.high_bp_count))

/-- The double quote character. -/
def dquote : Char :=
  Char.ofNat 34

/-- JavaScript `s.replace(/"/g, '""')`: every double quote is doubled. -/
def doubleQuotes : List Char → List Char
  | [] => []
  | c :: cs => if c = dquote then dquote :: dquote :: doubleQuotes cs else c :: doubleQuotes cs

/-- The expression `x || ""` on a text field, as `join` then writes it. -/
def textOrEmpty : Option String → List Char
  | some s => s.data
  | none => []

/-- The expression `record.cholesterol || ""`, as `join` then writes it: the
decimal digits of the number, and nothing for NULL and for 0. -/
def numberOrEmpty : Option Int → List Char
  | some n => if n ≠ 0 then (toString n).data else []
  | none => []

/-- The seven elements of the array `app.get("/export/csv")` builds for one
record, each as `join` converts it to text.  The date is written as its stored
text. -/
def csvFields (r : Row) : List (List Char) :=
  [(toString r.id).data,
   [dquote] ++ r.patient_name.data ++ [dquote],
   (toString r.age).data,
   textOrEmpty r.blood_pressure,
   numberOrEmpty r.cholesterol,
   textOrEmpty r.date,
   [dquote] ++ doubleQuotes (textOrEmpty r.notes) ++ [dquote]]

/-- The line `app.get("/export/csv")` pushes for one record: the seven
elements joined by commas. -/
def csvRow (r : Row) : String :=
  String.mk (List.intercalate [','] (csvFields r))

/-- Where a reader of a CSV line stands: at the start of a field, inside an
unquoted field, inside a quoted field, or just after a double quote met inside
a quoted field. -/
inductive CsvState where
  | fieldStart
  | unquoted
  | quoted
  | quoteSeen
  deriving DecidableEq, Repr

/-- Follows the spec's words: a line read under the standard CSV quoting rules.
Fields are separated by commas; a field that starts with a double quote runs
to its closing double quote, a doubled double quote inside it standing for one;
an unquoted field holds no double quote.  `field` is the current field and
`done` the finished ones, both reversed; `none` is a line the rules reject. -/
def readCsv : CsvState → List Char → List String → List Char → Option (List String)
  | .fieldStart, field, done, [] => some (String.mk field.reverse :: done).reverse
  | .unquoted, field, done, [] => some (String.mk field.reverse :: done).reverse
  | .quoteSeen, field, done, [] => some (String.mk field.reverse :: done).reverse
  | .quoted, _, _, [] => none
  | .fieldStart, field, done, c :: cs =>
    if c = dquote then readCsv .quoted field done cs
    else if c = ',' then readCsv .fieldStart [] (String.mk field.reverse :: done) cs
    else readCsv .unquoted (c :: field) done cs
  | .unquoted, field, done, c :: cs =>
    if c = dquote then none
    else if c = ',' then readCsv .fieldStart [] (String.mk field.reverse :: done) cs
    else readCsv .unquoted (c :: field) done cs
  | .quoted, field, done, c :: cs =>
    if c = dquote then readCsv .quoteSeen field done cs
    else readCsv .quoted (c :: field) done cs
  | .quoteSeen, field, done, c :: cs =>
    if c = dquote then readCsv .quoted (c :: field) done cs
    else if c = ',' then readCsv .fieldStart [] (String.mk field.reverse :: done) cs
    else none

/-- Follows the spec's words: the fields of a CSV line, if the line is well
formed. -/
def readCsvLine (line : String) : Option (List String) :=
  readCsv .fieldStart [] [] line.data

/-- Follows the spec's words: the seven values a CSV row is to give back for a
record, absent optional values as empty fields. -/
def expectedCsvFields (r : Row) : List String :=
  [toString r.id, r.patient_name, toString r.age,
   String.mk (textOrEmpty r.blood_pressure),
   (match r.cholesterol with
    | some n => toString n
    | none => ""),
   String.mk (textOrEmpty r.date),
   String.mk (textOrEmpty r.notes)]

/-! ## The risk rules in the spec's words -/

/-- Follows the spec's words: systolic is the integer parse of the text before
the first '/', absent when there is no blood pressure or no integer. -/
def specSystolic (r : Row) : Option Int :=
  match r.blood_pressure with
  | some s => parseInt (substringIndex s '/' 1)
  | none => none

/-- Follows the spec's words: diastolic is the integer parse of the text after
the last '/', absent when there is no blood pressure or no integer. -/
def specDiastolic (r : Row) : Option Int :=
  match r.blood_pressure with
  | some s => parseInt (substringIndex s '/' (-1))
  | none => none

/-- Follows the spec's words: the sub-list of the three flag names whose
conditions hold for the record, cholesterol > 200, systolic > 140 and
diastolic > 90, an absent or unparseable side comparing false. -/
def claimedFlags (r : Row) : List String :=
  ([("High Cholesterol", highCholesterol r),
    ("High Systolic BP", jsGt (specSystolic r) 140),
    ("High Diastolic BP", jsGt (specDiastolic r) 90)].filter (fun p => p.2)).map (fun p => p.1)

/-- Follows the spec's words: the record is at risk, cholesterol > 200 or
systolic > 140 or diastolic > 90. -/
def specAtRisk (r : Row) : Bool :=
  highCholesterol r || jsGt (specSystolic r) 140 || jsGt (specDiastolic r) 90

/-! ## Lemmas on the flag mapping -/

theorem mapM_ok_of_forall {α β : Type} (f : α → Except JsError β) (g : α → β)
    (h : ∀ a, f a = .ok (g a)) (l : List α) : l.mapM f = .ok (l.map g) := by
  induction l with
  | nil => rfl
  | cons a l ih =>
    rw [List.mapM_cons, h a, ih]
    rfl

theorem parseIntArg_split_empty (i : Nat) :
    parseIntArg ((jsSplit "" '/').get? i) = none := by
  cases i with
  | zero => rfl
  | succ n => rfl

theorem bpPartExceeds_eq (bp : Option String) (i : Nat) (k : Int) :
    bpPartExceeds bp i k = .ok
      (match bp with
       | some s => jsGt (parseIntArg ((jsSplit s '/').get? i)) k
       | none => false) := by
  cases bp with
  | none => rfl
  | some s =>
    by_cases hs : s = ""
    · subst hs
      simp only [parseIntArg_split_empty, jsGt]
      rfl
    · simp [bpPartExceeds, truthyText, hs, callSplit, bind, Except.bind, pure, Except.pure]

theorem flags_eq_selected (r : Row) : flags r = .ok (selectedFlags r) := by
  have hs : jsGt (jsSystolic r) 140 =
      (match r.blood_pressure with
       | some s => jsGt (parseIntArg ((jsSplit s '/').get? 0)) 140
       | none => false) := by
    unfold jsSystolic; cases r.blood_pressure <;> rfl
  have hd : jsGt (jsDiastolic r) 90 =
      (match r.blood_pressure with
       | some s => jsGt (parseIntArg ((jsSplit s '/').get? 1)) 90
       | none => false) := by
    unfold jsDiastolic; cases r.blood_pressure <;> rfl
  have hc : jsGtNullable r.cholesterol 200 = highCholesterol r := by
    unfold jsGtNullable highCholesterol jsGt
    cases r.cholesterol <;> simp
  unfold flags selectedFlags flagTable
  rw [bpPartExceeds_eq, bpPartExceeds_eq, hc, hs, hd]
  generalize highCholesterol r = c
  generalize (match r.blood_pressure with
       | some s => jsGt (parseIntArg ((jsSplit s '/').get? 0)) 140
       | none => false) = a
  generalize (match r.blood_pressure with
       | some s => jsGt (parseIntArg ((jsSplit s '/').get? 1)) 90
       | none => false) = b
  cases c <;> cases a <;> cases b <;> rfl

theorem riskEntry_eq (r : Row) : riskEntry r = .ok (entryOf r (selectedFlags r)) := by
  unfold riskEntry
  rw [flags_eq_selected]
  rfl

theorem analysis_eq (db : Db) (uid : Nat) :
    analysis db uid = .ok
      { stats := analysisStats db uid
        risks := (riskQuery db uid).map (fun r => entryOf r (selectedFlags r)) } := by
  unfold analysis
  rw [mapM_ok_of_forall riskEntry (fun r => entryOf r (selectedFlags r)) riskEntry_eq]
  rfl

theorem mem_selectedFlags_cholesterol (r : Row) :
    "High Cholesterol" ∈ selectedFlags r ↔ highCholesterol r = true := by
  unfold selectedFlags flagTable
  cases highCholesterol r <;> cases jsGt (jsSystolic r) 140 <;>
    cases jsGt (jsDiastolic r) 90 <;> decide

theorem mem_selectedFlags_systolic (r : Row) :
    "High Systolic BP" ∈ selectedFlags r ↔ jsGt (jsSystolic r) 140 = true := by
  unfold selectedFlags flagTable
  cases highCholesterol r <;> cases jsGt (jsSystolic r) 140 <;>
    cases jsGt (jsDiastolic r) 90 <;> decide

theorem mem_selectedFlags_diastolic (r : Row) :
    "High Diastolic BP" ∈ selectedFlags r ↔ jsGt (jsDiastolic r) 90 = true := by
  unfold selectedFlags flagTable
  cases highCholesterol r <;> cases jsGt (jsSystolic r) 140 <;>
    cases jsGt (jsDiastolic r) 90 <;> decide

theorem selectedFlags_sublist (r : Row) :
    (selectedFlags r).Sublist ["High Cholesterol", "High Systolic BP", "High Diastolic BP"] := by
  have hm : (flagTable r).map (fun p => p.1) =
      ["High Cholesterol", "High Systolic BP", "High Diastolic BP"] := rfl
  unfold selectedFlags
  rw [← hm]
  exact (List.filter_sublist _).map _

theorem jsGt_eq_true_iff (x : Option Int) (k : Int) :
    jsGt x k = true ↔ ∃ v, x = some v ∧ k < v := by
  cases x with
  | none => simp [jsGt]
  | some v => simp [jsGt]

/-! ## Lemmas on splitting and `SUBSTRING_INDEX` -/

theorem splitChars_ne_nil (sep : Char) (cs : List Char) : splitChars sep cs ≠ [] := by
  cases cs with
  | nil => simp [splitChars]
  | cons c cs =>
    unfold splitChars
    split
    · simp
    · split <;> simp

theorem splitChars_of_not_mem (sep : Char) (cs : List Char) (h : sep ∉ cs) :
    splitChars sep cs = [cs] := by
  induction cs with
  | nil => rfl
  | cons c cs ih =>
    have hc : c ≠ sep := fun e => h (by simp [e])
    have ht : sep ∉ cs := fun e => h (List.mem_cons_of_mem _ e)
    simp [splitChars, hc, ih ht]

theorem splitChars_append_sep (sep : Char) (a b : List Char) :
    splitChars sep (a ++ sep :: b) = splitChars sep a ++ splitChars sep b := by
  induction a with
  | nil => simp [splitChars]
  | cons c a ih =>
    by_cases hc : c = sep
    · simp [splitChars, hc, ih]
    · have hne := splitChars_ne_nil sep a
      have e1 : splitChars sep (c :: (a ++ sep :: b)) =
          (match splitChars sep (a ++ sep :: b) with
           | [] => [[c]]
           | p :: ps => (c :: p) :: ps) := by
        simp [splitChars, hc]
      have e2 : splitChars sep (c :: a) =
          (match splitChars sep a with
           | [] => [[c]]
           | p :: ps => (c :: p) :: ps) := by
        simp [splitChars, hc]
      rw [List.cons_append, e1, e2, ih]
      cases hsa : splitChars sep a with
      | nil => exact absurd hsa hne
      | cons p ps => rfl

theorem substringIndex_first (s : String) (pre suf : List Char)
    (hs : s.data = pre ++ '/' :: suf) (hpre : '/' ∉ pre) :
    substringIndex s '/' 1 = String.mk pre := by
  unfold substringIndex
  rw [hs, splitChars_append_sep, splitChars_of_not_mem _ _ hpre]
  simp [List.intercalate]

theorem substringIndex_last (s : String) (pre suf : List Char)
    (hs : s.data = pre ++ '/' :: suf) (hsuf : '/' ∉ suf) :
    substringIndex s '/' (-1) = String.mk suf := by
  unfold substringIndex
  rw [hs, splitChars_append_sep, splitChars_of_not_mem _ _ hsuf]
  simp [List.intercalate]

theorem substringIndex_no_delim (s : String) (h : '/' ∉ s.data) :
    substringIndex s '/' 1 = s ∧ substringIndex s '/' (-1) = s := by
  unfold substringIndex
  rw [splitChars_of_not_mem _ _ h]
  simp [List.intercalate]

/-! ## Lemmas on the SQL queries -/

theorem sqlWhere_ownedBy (uid : Nat) (rows : List Row) :
    sqlWhere (ownedBy uid) rows = rows.filter (fun r => decide (r.user_id = uid)) := by
  unfold sqlWhere ownedBy
  congr 1
  funext r
  by_cases h : r.user_id = uid <;> simp [h]

theorem sqlGt_eq_some_true {α : Type} [LT α] [DecidableRel (fun a b : α => a < b)]
    (x : Option α) (k : α) : sqlGt x k = some true ↔ ∃ v, x = some v ∧ k < v := by
  cases x with
  | none => simp [sqlGt]
  | some v => simp [sqlGt]

theorem riskCondition_eq_true (uid : Nat) (r : Row) :
    riskCondition uid r = some true ↔
      r.user_id = uid ∧ (sqlGt r.cholesterol 200 = some true ∨
        sqlGt (bpPartSql r 1) 140 = some true ∨ sqlGt (bpPartSql r (-1)) 90 = some true) := by
  unfold riskCondition ownedBy
  by_cases hu : r.user_id = uid
  · rcases ha : sqlGt r.cholesterol 200 with _ | _ | _ <;>
      rcases hb : sqlGt (bpPartSql r 1) 140 with _ | _ | _ <;>
        rcases hc : sqlGt (bpPartSql r (-1)) 90 with _ | _ | _ <;>
          simp [hu, sqlAnd, sqlOr]
  · rcases ha : sqlGt r.cholesterol 200 with _ | _ | _ <;>
      rcases hb : sqlGt (bpPartSql r 1) 140 with _ | _ | _ <;>
        rcases hc : sqlGt (bpPartSql r (-1)) 90 with _ | _ | _ <;>
          simp [hu, sqlAnd, sqlOr]

theorem bpPartSql_gt (r : Row) (count : Int) (k : Nat) :
    sqlGt (bpPartSql r count) k = some true ↔
      ∃ s, r.blood_pressure = some s ∧ k < castUnsigned (substringIndex s '/' count) := by
  rw [sqlGt_eq_some_true]
  unfold bpPartSql
  cases r.blood_pressure with
  | none => simp
  | some s => simp

theorem mem_riskQuery (db : Db) (uid : Nat) (r : Row) :
    r ∈ riskQuery db uid ↔ r ∈ db.rows ∧ riskCondition uid r = some true := by
  unfold riskQuery sqlWhere
  rw [List.mem_insertionSort, List.mem_filter]
  simp

theorem sqlCount_caseWhen (f : Row → Option Bool) (rs : List Row) :
    sqlCount (rs.map (fun r => caseWhen (f r) (1 : Nat))) =
      rs.countP (fun r => decide (f r = some true)) := by
  unfold sqlCount
  induction rs with
  | nil => rfl
  | cons r rs ih =>
    simp only [caseWhen] at ih
    by_cases h : f r = some true
    · simp [caseWhen, h, ih]
    · simp [caseWhen, h, ih]

theorem sqlAvg_of_ne_nil (col : List (Option Int)) (h : col.filterMap id ≠ []) :
    sqlAvg col = some (decimalMean (col.filterMap id).sum (col.filterMap id).length) := by
  unfold sqlAvg
  cases hc : col.filterMap id with
  | nil => exact absurd hc h
  | cons v vs => rfl

theorem roundedQuotient_close (a n : Nat) (hn : 0 < n) :
    |(((2 * a * 10000 + n) / (2 * n) : Nat) : ℚ) / 10000 - (a : ℚ) / (n : ℚ)| ≤ 1 / 20000 := by
  have h1 : 2 * n * ((2 * a * 10000 + n) / (2 * n)) ≤ 2 * a * 10000 + n := Nat.mul_div_le _ _
  have h2 : 2 * a * 10000 + n < 2 * n * ((2 * a * 10000 + n) / (2 * n) + 1) :=
    Nat.lt_mul_div_succ _ (by omega)
  generalize (2 * a * 10000 + n) / (2 * n) = q at h1 h2
  have h1' : (2 : ℚ) * n * q ≤ 2 * a * 10000 + n := by exact_mod_cast h1
  have h2' : (2 : ℚ) * a * 10000 + n < 2 * n * (q + 1) := by exact_mod_cast h2
  have hn' : (0 : ℚ) < n := by exact_mod_cast hn
  have e : (q : ℚ) / 10000 - (a : ℚ) / n = (q * n - 10000 * a) / (10000 * n) := by
    field_simp
  rw [e, abs_le]
  constructor
  · rw [le_div_iff₀ (by positivity)]
    nlinarith
  · rw [div_le_iff₀ (by positivity)]
    nlinarith

theorem decimalMean_close (s : Int) (n : Nat) (hn : 0 < n) :
    |decimalMean s n - (s : ℚ) / (n : ℚ)| ≤ 1 / 20000 := by
  unfold decimalMean
  simp only []
  obtain ⟨a, ha⟩ : ∃ a : Nat, s.natAbs = a := ⟨_, rfl⟩
  rw [ha]
  have h := roundedQuotient_close a n hn
  by_cases hs : 0 ≤ s
  · rw [if_pos hs]
    have hz : s = (a : Int) := by omega
    rw [hz, Int.cast_natCast, Int.cast_natCast]
    exact h
  · rw [if_neg hs]
    have hz : s = -(a : Int) := by omega
    rw [hz, Int.cast_neg, Int.cast_neg, Int.cast_natCast, Int.cast_natCast]
    have e : -(((2 * a * 10000 + n) / (2 * n) : Nat) : ℚ) / 10000 - -(a : ℚ) / (n : ℚ) =
        -((((2 * a * 10000 + n) / (2 * n) : Nat) : ℚ) / 10000 - (a : ℚ) / (n : ℚ)) := by
      ring
    rw [e, abs_neg]
    exact h

theorem decimalMean_scaled (s : Int) (n : Nat) : ∃ z : Int, decimalMean s n = (z : ℚ) / 10000 := by
  unfold decimalMean
  simp only []
  by_cases hs : 0 ≤ s
  · rw [if_pos hs]; exact ⟨_, rfl⟩
  · rw [if_neg hs]; exact ⟨_, rfl⟩

theorem castUnsigned_no_number (s : String)
    (h : ∀ c ∈ s.data.head?, c ≠ ' ' ∧ c ≠ '\t' ∧ c ≠ '+' ∧ c ≠ '-' ∧ digitValue 10 c = none) :
    castUnsigned s = 0 := by
  unfold castUnsigned
  cases hs : s.data with
  | nil => rfl
  | cons c cs =>
    rw [hs] at h
    obtain ⟨h1, h2, h3, h4, h5⟩ := h c (by simp)
    have hd : List.dropWhile (fun c => c = ' ' || c = '\t') (c :: cs) = c :: cs := by
      simp [List.dropWhile, h1, h2]
    rw [hd]
    have hbody : (match c :: cs with
        | '-' :: r => r
        | '+' :: r => r
        | r => r) = c :: cs := by
      split
      · next r heq => cases heq; exact absurd rfl h4
      · next r heq => cases heq; exact absurd rfl h3
      · rfl
    have hneg : (match c :: cs with
        | '-' :: _ => true
        | _ => false) = false := by
      split
      · next r heq => cases heq; exact absurd rfl h4
      · rfl
    simp only [hbody, hneg, leadingDigits, h5, digitsValue, List.foldl]
    decide

/-! ## Lemmas on the record handlers -/

theorem truthy_eq_false_iff (v : JsVal) :
    truthy v = false ↔
      v = .undefined ∨ v = .null ∨ v = .bool false ∨ v = .num 0 ∨ v = .str "" := by
  cases v <;> simp [truthy]

theorem toTextColumn_orNull_optText (o : Option String) :
    toTextColumn (orNull (optText o)) = some (nonEmptyText o) := by
  cases o with
  | none => rfl
  | some s =>
    by_cases hs : s = ""
    · subst hs; rfl
    · simp [optText, orNull, truthy, hs, toTextColumn, nonEmptyText]

theorem toIntColumn_orNull_optNum (o : Option Int) (h : o ≠ some 0) :
    toIntColumn (orNull (optNum o)) = some o := by
  cases o with
  | none => rfl
  | some n =>
    have hn : n ≠ 0 := fun e => h (by rw [e])
    have hq : ((n : Int) : ℚ) ≠ 0 := by exact_mod_cast hn
    simp [optNum, orNull, truthy, hq, toIntColumn]

theorem sqlWhere_id_of_wf (db : Db) (uid : Nat) (h : db.WF) :
    sqlWhere (fun r => sqlAnd (some (decide (r.id = db.nextId))) (ownedBy uid r)) db.rows = [] := by
  unfold sqlWhere
  rw [List.filter_eq_nil_iff]
  intro r hr
  have hlt := h r hr
  have hne : r.id ≠ db.nextId := by omega
  simp [hne, sqlAnd]

/-! ## Lemmas on update, delete and list -/

theorem hitsRecord_iff (id uid : Nat) (r : Row) :
    hitsRecord id uid r = true ↔ r.id = id ∧ r.user_id = uid := by
  unfold hitsRecord ownedBy
  by_cases h1 : r.id = id <;> by_cases h2 : r.user_id = uid <;> simp [h1, h2, sqlAnd]

theorem filter_hitsRecord_eq_nil (db : Db) (a id : Nat)
    (h : ∀ x ∈ db.rows, x.id = id → x.user_id ≠ a) :
    db.rows.filter (hitsRecord id a) = [] := by
  rw [List.filter_eq_nil_iff]
  intro x hx hhit
  rw [hitsRecord_iff] at hhit
  exact h x hx hhit.1 hhit.2

theorem notFoundEverywhere_of_no_hit (db : Db) (a id : Nat) (body : RecordBody)
    (h : ∀ x ∈ db.rows, x.id = id → x.user_id ≠ a) : notFoundEverywhere db a id body := by
  have hnil := filter_hitsRecord_eq_nil db a id h
  have hupd : ∀ p1 p2 p3 p4 p5 p6 : JsVal,
      updateRecord db p1 p2 p3 p4 p5 p6 id a = some (0, db) := by
    intro p1 p2 p3 p4 p5 p6
    unfold updateRecord
    rw [hnil]
  have hput : truthy body.patient_name = true → truthy body.age = true →
      putRecord db a id body =
        ({ status := 404, body := .message "Record not found or unauthorized" }, db) := by
    intro h1 h2
    unfold putRecord
    simp [h1, h2, hupd]
  refine ⟨?_, ?_, ?_, ?_, hput⟩
  · unfold getRecord sqlWhere
    have : db.rows.filter (fun r => sqlAnd (some (decide (r.id = id))) (ownedBy a r) == some true)
        = [] := hnil
    rw [this]
  · unfold deleteRecord deleteStatement
    rw [hnil]
    have hself : db.rows.filter (fun r => !hitsRecord id a r) = db.rows := by
      rw [List.filter_eq_self]
      intro x hx
      have : hitsRecord id a x = false := by
        cases hh : hitsRecord id a x
        · rfl
        · exact absurd (List.mem_filter.mpr ⟨hx, hh⟩) (by rw [hnil]; simp)
      simp [this]
    simp [hself]
  · by_cases h1 : truthy body.patient_name = true
    · by_cases h2 : truthy body.age = true
      · rw [hput h1 h2]
      · unfold putRecord; simp [h2]
    · unfold putRecord; simp [h1]
  · by_cases h1 : truthy body.patient_name = true
    · by_cases h2 : truthy body.age = true
      · rw [hput h1 h2]; simp
      · unfold putRecord; simp [h2]
    · unfold putRecord; simp [h1]

theorem lexDesc_total {κ : Type} [LinearOrder κ] (ka kb : κ) (ia ib : Nat) :
    (kb ≤ ka ∧ (¬ ka ≤ kb ∨ ib ≤ ia)) ∨ (ka ≤ kb ∧ (¬ kb ≤ ka ∨ ia ≤ ib)) := by
  rcases lt_trichotomy ka kb with h | h | h
  · exact Or.inr ⟨le_of_lt h, Or.inl (not_le.mpr h)⟩
  · subst h
    rcases Nat.le_total ia ib with hi | hi
    · exact Or.inr ⟨le_refl _, Or.inr hi⟩
    · exact Or.inl ⟨le_refl _, Or.inr hi⟩
  · exact Or.inl ⟨le_of_lt h, Or.inl (not_le.mpr h)⟩

theorem lexDesc_trans {κ : Type} [LinearOrder κ] (ka kb kc : κ) (ia ib ic : Nat)
    (hab : kb ≤ ka ∧ (¬ ka ≤ kb ∨ ib ≤ ia)) (hbc : kc ≤ kb ∧ (¬ kb ≤ kc ∨ ic ≤ ib)) :
    kc ≤ ka ∧ (¬ ka ≤ kc ∨ ic ≤ ia) := by
  refine ⟨le_trans hbc.1 hab.1, ?_⟩
  by_cases hac : ka ≤ kc
  · right
    have h1 : ka ≤ kb := le_trans hac hbc.1
    have h2 : kb ≤ kc := le_trans hab.1 hac
    rcases hab.2 with h | h
    · exact absurd h1 h
    · rcases hbc.2 with h' | h'
      · exact absurd h2 h'
      · exact le_trans h' h
  · exact Or.inl hac

theorem dateDesc_iff (a b : Row) :
    dateDesc a b = true ↔ (show WithBot String from b.date) ≤ (show WithBot String from a.date) := by
  unfold dateDesc
  cases ha : a.date with
  | none =>
    cases hb : b.date with
    | none => simp
    | some y =>
      simp only [Bool.false_eq_true, false_iff]
      exact WithBot.not_coe_le_bot y
  | some x =>
    cases hb : b.date with
    | none =>
      simp only [true_iff]
      exact bot_le
    | some y =>
      simp only [Bool.not_eq_true', decide_eq_false_iff_not]
      rw [show ((show WithBot String from some y) ≤ (show WithBot String from some x)) ↔ y ≤ x
        from WithBot.coe_le_coe]
      rw [← not_lt, String.lt_iff_toList_lt]
      rfl

theorem listOrder_iff (a b : Row) :
    listOrder a b = true ↔
      ((show WithBot String from b.date) ≤ (show WithBot String from a.date) ∧
        (¬ (show WithBot String from a.date) ≤ (show WithBot String from b.date) ∨
          b.id ≤ a.id)) := by
  unfold listOrder
  rw [Bool.and_eq_true, Bool.or_eq_true, dateDesc_iff, Bool.not_eq_true', ← Bool.not_eq_true,
    dateDesc_iff, decide_eq_true_eq]

theorem listRecords_sorted (db : Db) (uid : Nat) (search : Option String) :
    (listRecords db uid search).Pairwise (fun a b => listOrder a b = true) := by
  haveI : IsTotal Row (fun a b => listOrder a b = true) :=
    ⟨fun a b => by
      rw [listOrder_iff, listOrder_iff]
      exact lexDesc_total _ _ _ _⟩
  haveI : IsTrans Row (fun a b => listOrder a b = true) :=
    ⟨fun a b c hab hbc => by
      rw [listOrder_iff] at hab hbc ⊢
      exact lexDesc_trans _ _ _ _ _ _ hab hbc⟩
  exact List.sorted_insertionSort (fun a b => listOrder a b = true) _

theorem listOrder_readable (a b : Row) (h : listOrder a b = true) :
    (a.date = none → b.date = none) ∧
    (∀ x y : String, a.date = some x → b.date = some y → ¬ x < y) ∧
    (a.date = b.date → b.id ≤ a.id) := by
  have h' := h
  unfold listOrder at h'
  rw [Bool.and_eq_true, Bool.or_eq_true] at h'
  obtain ⟨h1, h2⟩ := h'
  refine ⟨?_, ?_, ?_⟩
  · intro ha
    unfold dateDesc at h1
    rw [ha] at h1
    cases hb : b.date with
    | none => rfl
    | some y => rw [hb] at h1; simp at h1
  · intro x y ha hb
    unfold dateDesc at h1
    rw [ha, hb] at h1
    simp only [Bool.not_eq_true', decide_eq_false_iff_not] at h1
    rw [String.lt_iff_toList_lt]
    exact h1
  · intro hd
    have hba : dateDesc b a = true := by
      rw [dateDesc_iff, hd]
    rcases h2 with h2 | h2
    · rw [hba] at h2; simp at h2
    · exact of_decide_eq_true h2

/-! ## Lemmas on authentication and the client-side filter -/

theorem splitChars_head (sep : Char) (cs : List Char) :
    (splitChars sep cs).head? = some (cs.takeWhile (fun c => c != sep)) := by
  induction cs with
  | nil => rfl
  | cons c cs ih =>
    by_cases hc : c = sep
    · simp [splitChars, hc]
    · have e : splitChars sep (c :: cs) =
          (match splitChars sep cs with
           | [] => [[c]]
           | p :: ps => (c :: p) :: ps) := by
        simp [splitChars, hc]
      rw [e]
      cases hs : splitChars sep cs with
      | nil => exact absurd hs (splitChars_ne_nil sep cs)
      | cons p ps =>
        rw [hs] at ih
        simp only [List.head?_cons, Option.some.injEq] at ih
        have hb : (c != sep) = true := by simpa using hc
        simp [List.takeWhile, hb, ih]

theorem jsSplit_second_piece (h : String) (pre rest : List Char)
    (hs : h.data = pre ++ ' ' :: rest) (hpre : ' ' ∉ pre) :
    (jsSplit h ' ').get? 1 = some (String.mk (rest.takeWhile (fun c => c != ' '))) := by
  unfold jsSplit
  rw [hs, splitChars_append_sep, splitChars_of_not_mem _ _ hpre]
  have hh := splitChars_head ' ' rest
  cases hr : splitChars ' ' rest with
  | nil => exact absurd hr (splitChars_ne_nil _ _)
  | cons p ps =>
    rw [hr] at hh
    simp only [List.head?_cons, Option.some.injEq] at hh
    simp [hh]

theorem authenticate_some (verify : String → Option TokenClaims) (h : String) :
    authenticate verify (some h) =
      (match (jsSplit h ' ').get? 1 with
       | none => .answered 401 "No token provided"
       | some t =>
         if t = "" then .answered 401 "No token provided"
         else
           match verify t with
           | some decoded => .next decoded
           | none => .answered 401 "Invalid or expired token") := by
  unfold authenticate
  simp only []
  generalize (jsSplit h ' ').get? 1 = tok
  cases tok with
  | none => rfl
  | some t =>
    by_cases ht : t = ""
    · simp [truthyText, ht]
    · simp [truthyText, ht]

theorem jsTrim_eq_empty_iff (q : String) :
    jsTrim q = "" ↔ ∀ c ∈ q.data, isStrWhiteSpace c = true := by
  unfold jsTrim
  constructor
  · intro h
    have h1 : ((q.data.dropWhile isStrWhiteSpace).reverse.dropWhile isStrWhiteSpace).reverse = [] := by
      have := congrArg String.data h
      simpa using this
    rw [List.reverse_eq_nil_iff, List.dropWhile_eq_nil_iff] at h1
    by_contra hne
    have hd : q.data.dropWhile isStrWhiteSpace ≠ [] := by
      intro e
      rw [List.dropWhile_eq_nil_iff] at e
      exact hne e
    obtain ⟨x, xs, hx⟩ := List.exists_cons_of_ne_nil hd
    have hnot : isStrWhiteSpace x = false := by
      have := List.head_dropWhile_not isStrWhiteSpace q.data hd
      simp only [hx, List.head_cons] at this
      simpa using this
    have hmem : x ∈ (q.data.dropWhile isStrWhiteSpace).reverse := by
      rw [List.mem_reverse, hx]
      simp
    rw [h1 x hmem] at hnot
    exact absurd hnot (by decide)
  · intro h
    have hd : q.data.dropWhile isStrWhiteSpace = [] := by
      rw [List.dropWhile_eq_nil_iff]
      exact h
    rw [hd]
    rfl

theorem jsIncludes_empty_query (t : String) : jsIncludes t "" = true := by
  unfold jsIncludes
  cases h : t.data with
  | nil => rfl
  | cons c cs => simp [List.tails]

theorem jsIncludes_empty_text (q : String) (h : q ≠ "") : jsIncludes "" q = false := by
  unfold jsIncludes
  have hq : q.data ≠ [] := by
    intro e
    apply h
    cases q
    simp_all
  cases hd : q.data with
  | nil => exact absurd hd hq
  | cons c cs => rfl

theorem filterExcept_ok {α : Type} (p : α → Except JsError Bool) (g : α → Bool)
    (h : ∀ a, p a = .ok (g a)) (l : List α) : filterExcept p l = .ok (l.filter g) := by
  induction l with
  | nil => rfl
  | cons a l ih =>
    unfold filterExcept
    rw [h a, ih]
    cases hg : g a <;> simp [List.filter_cons, hg, bind, Except.bind, pure, Except.pure]

theorem recordMatches_eq (lower : String → String) (hl : lower "" = "") (q : String) (r : Row) :
    recordMatches lower q r = .ok
      (if jsTrim q = "" then true
       else jsIncludes (lower r.patient_name) (lower q) ||
         (match r.notes with
          | some n => jsIncludes (lower n) (lower q)
          | none => false)) := by
  unfold recordMatches
  by_cases ht : jsTrim q = ""
  · simp [ht, truthyText, pure, Except.pure]
  · simp only [truthyText, ht, ne_eq, not_false_eq_true, decide_True, Bool.not_true,
      Bool.false_eq_true, if_false, callToLowerCase, bind, Except.bind, pure, Except.pure]
    by_cases hn : jsIncludes (lower r.patient_name) (lower q) = true
    · simp [hn]
    · have hn' : jsIncludes (lower r.patient_name) (lower q) = false := by
        simpa using hn
      simp only [hn', Bool.false_eq_true, if_false, Bool.false_or]
      cases hnotes : r.notes with
      | none => rfl
      | some n =>
        by_cases hne : n = ""
        · subst hne
          have hq : lower q ≠ "" := by
            intro e
            rw [e, jsIncludes_empty_query] at hn'
            exact absurd hn' (by decide)
          simp [hl, jsIncludes_empty_text _ hq]
        · simp [hne]

/-! ## The flags of a risk entry -/

/-- The flag mapping in closed form: every entry of `risks` carries exactly
the names of `flagTable` whose condition holds under the mapping's own
readings `jsSystolic` and `jsDiastolic`, in that order and without
repetition. -/
theorem flags_are_selected_sublist :
    (∀ r : Row, flags r = .ok (((flagTable r).filter (fun p => p.2)).map (fun p => p.1)) ∧
      (selectedFlags r).Sublist ["High Cholesterol", "High Systolic BP", "High Diastolic BP"] ∧
      (selectedFlags r).Nodup ∧
      ("High Cholesterol" ∈ selectedFlags r ↔ ∃ c, r.cholesterol = some c ∧ 200 < c) ∧
      ("High Systolic BP" ∈ selectedFlags r ↔ ∃ v, jsSystolic r = some v ∧ 140 < v) ∧
      ("High Diastolic BP" ∈ selectedFlags r ↔ ∃ v, jsDiastolic r = some v ∧ 90 < v)) ∧
    (∀ (db : Db) (uid : Nat), ∃ resp, analysis db uid = .ok resp ∧
      resp.risks = (riskQuery db uid).map (fun r => entryOf r (selectedFlags r))) ∧
    (∀ (id uid : Nat) (nm : String) (age : Int) (notes date : Option String),
      flags { id := id, user_id := uid, patient_name := nm, age := age,
              blood_pressure := some "150/95", cholesterol := some 210,
              notes := notes, date := date } =
        .ok ["High Cholesterol", "High Systolic BP", "High Diastolic BP"]) := by
  refine ⟨fun r => ⟨flags_eq_selected r, selectedFlags_sublist r, ?_, ?_, ?_, ?_⟩, ?_, ?_⟩
  · exact (selectedFlags_sublist r).nodup (by decide)
  · rw [mem_selectedFlags_cholesterol]
    unfold highCholesterol
    cases r.cholesterol <;> simp
  · rw [mem_selectedFlags_systolic, jsGt_eq_true_iff]
  · rw [mem_selectedFlags_diastolic, jsGt_eq_true_iff]
  · intro db uid
    exact ⟨_, analysis_eq db uid, rfl⟩
  · intro id uid nm age notes date
    rfl

/-- C1 at the returned record with cholesterol 210 and blood pressure
"120/95/80": its flags are "High Cholesterol" and "High Diastolic BP", while
the sub-list whose conditions hold, diastolic being the 80 after the last '/',
is "High Cholesterol" alone; for "150/95" both give all three names. -/
theorem flags_differ_from_claimed_sublist :
    riskQuery ⟨[⟨7, 1, "Ann", 50, some "120/95/80", some 210, none, none⟩], 8⟩ 1 =
      [⟨7, 1, "Ann", 50, some "120/95/80", some 210, none, none⟩] ∧
    (analysis ⟨[⟨7, 1, "Ann", 50, some "120/95/80", some 210, none, none⟩], 8⟩ 1).map
        (fun resp => resp.risks.map (fun e => e.flags)) =
      .ok [["High Cholesterol", "High Diastolic BP"]] ∧
    specDiastolic ⟨7, 1, "Ann", 50, some "120/95/80", some 210, none, none⟩ = some 80 ∧
    claimedFlags ⟨7, 1, "Ann", 50, some "120/95/80", some 210, none, none⟩ =
      ["High Cholesterol"] ∧
    flags ⟨1, 1, "Bob", 50, some "150/95", some 210, none, none⟩ =
      .ok ["High Cholesterol", "High Systolic BP", "High Diastolic BP"] ∧
    claimedFlags ⟨1, 1, "Bob", 50, some "150/95", some 210, none, none⟩ =
      ["High Cholesterol", "High Systolic BP", "High Diastolic BP"] := by
  refine ⟨by decide, rfl, by decide, by decide, rfl, by decide⟩

/-- C2: the three thresholds are strict: cholesterol 200 gives no
"High Cholesterol" and any cholesterol of 201 or more gives it, systolic 140
gives no "High Systolic BP" and 141 gives it, diastolic 90 gives no
"High Diastolic BP" and 91 gives it. -/
theorem flag_thresholds_strict (r : Row) :
    (r.cholesterol = some 200 → ∃ fl, flags r = .ok fl ∧ "High Cholesterol" ∉ fl) ∧
    (∀ c : Int, 201 ≤ c → r.cholesterol = some c →
      ∃ fl, flags r = .ok fl ∧ "High Cholesterol" ∈ fl) ∧
    (jsSystolic r = some 140 → ∃ fl, flags r = .ok fl ∧ "High Systolic BP" ∉ fl) ∧
    (jsSystolic r = some 141 → ∃ fl, flags r = .ok fl ∧ "High Systolic BP" ∈ fl) ∧
    (jsDiastolic r = some 90 → ∃ fl, flags r = .ok fl ∧ "High Diastolic BP" ∉ fl) ∧
    (jsDiastolic r = some 91 → ∃ fl, flags r = .ok fl ∧ "High Diastolic BP" ∈ fl) := by
  refine ⟨fun h => ⟨_, flags_eq_selected r, ?_⟩, fun c hc h => ⟨_, flags_eq_selected r, ?_⟩,
    fun h => ⟨_, flags_eq_selected r, ?_⟩, fun h => ⟨_, flags_eq_selected r, ?_⟩,
    fun h => ⟨_, flags_eq_selected r, ?_⟩, fun h => ⟨_, flags_eq_selected r, ?_⟩⟩
  · rw [mem_selectedFlags_cholesterol]; simp [highCholesterol, h]
  · rw [mem_selectedFlags_cholesterol]; simp [highCholesterol, h]; omega
  · rw [mem_selectedFlags_systolic, h]; decide
  · rw [mem_selectedFlags_systolic, h]; decide
  · rw [mem_selectedFlags_diastolic, h]; decide
  · rw [mem_selectedFlags_diastolic, h]; decide

/-- The thresholds at two concrete rows: 200 with "140/90" gets no flag, 201
with "141/91" gets all three. -/
theorem flag_thresholds_strict_witness :
    (∃ fl, flags ⟨1, 1, "Ann", 50, some "140/90", some 200, none, none⟩ = .ok fl ∧
      "High Cholesterol" ∉ fl) ∧
    (∃ fl, flags ⟨2, 1, "Bob", 50, some "141/91", some 201, none, none⟩ = .ok fl ∧
      "High Cholesterol" ∈ fl) ∧
    (∃ fl, flags ⟨1, 1, "Ann", 50, some "140/90", some 200, none, none⟩ = .ok fl ∧
      "High Systolic BP" ∉ fl) ∧
    (∃ fl, flags ⟨2, 1, "Bob", 50, some "141/91", some 201, none, none⟩ = .ok fl ∧
      "High Systolic BP" ∈ fl) ∧
    (∃ fl, flags ⟨1, 1, "Ann", 50, some "140/90", some 200, none, none⟩ = .ok fl ∧
      "High Diastolic BP" ∉ fl) ∧
    (∃ fl, flags ⟨2, 1, "Bob", 50, some "141/91", some 201, none, none⟩ = .ok fl ∧
      "High Diastolic BP" ∈ fl) :=
  ⟨(flag_thresholds_strict ⟨1, 1, "Ann", 50, some "140/90", some 200, none, none⟩).1 rfl,
   (flag_thresholds_strict ⟨2, 1, "Bob", 50, some "141/91", some 201, none, none⟩).2.1 201
     (by decide) rfl,
   (flag_thresholds_strict ⟨1, 1, "Ann", 50, some "140/90", some 200, none, none⟩).2.2.1 rfl,
   (flag_thresholds_strict ⟨2, 1, "Bob", 50, some "141/91", some 201, none, none⟩).2.2.2.1 rfl,
   (flag_thresholds_strict ⟨1, 1, "Ann", 50, some "140/90", some 200, none, none⟩).2.2.2.2.1 rfl,
   (flag_thresholds_strict ⟨2, 1, "Bob", 50, some "141/91", some 201, none, none⟩).2.2.2.2.2 rfl⟩

/-- C3 at the row with cholesterol 210 and blood pressure "120/95/80": the
risk query selects it, the text after the last '/' parses to 80 (also for the
query's own `SUBSTRING_INDEX(.., -1)`), yet the flag mapping reads the second
piece, 95, and attaches "High Diastolic BP". -/
theorem flags_multi_slash_reads_second_piece :
    flags ⟨7, 1, "Ann", 50, some "120/95/80", some 210, none, none⟩ =
      .ok ["High Cholesterol", "High Diastolic BP"] ∧
    jsDiastolic ⟨7, 1, "Ann", 50, some "120/95/80", some 210, none, none⟩ = some 95 ∧
    parseInt (substringIndex "120/95/80" '/' (-1)) = some 80 ∧
    bpPartSql ⟨7, 1, "Ann", 50, some "120/95/80", some 210, none, none⟩ (-1) = some 80 ∧
    riskQuery ⟨[⟨7, 1, "Ann", 50, some "120/95/80", some 210, none, none⟩], 8⟩ 1 =
      [⟨7, 1, "Ann", 50, some "120/95/80", some 210, none, none⟩] := by
  refine ⟨rfl, rfl, rfl, rfl, rfl⟩

/-- C4: computing the flags never throws, whatever the blood pressure; an
absent or empty blood pressure gives no blood-pressure flag; a side that does
not parse gives no flag for that side while the other side is still compared:
"/95" and "abc/95" get "High Diastolic BP" alone, "160/95" gets both. -/
theorem flags_total_and_degrade :
    (∀ r : Row, ∃ fl, flags r = .ok fl ∧
      ((r.blood_pressure = none ∨ r.blood_pressure = some "") →
        "High Systolic BP" ∉ fl ∧ "High Diastolic BP" ∉ fl) ∧
      (jsSystolic r = none → "High Systolic BP" ∉ fl ∧
        ("High Diastolic BP" ∈ fl ↔ ∃ v, jsDiastolic r = some v ∧ 90 < v)) ∧
      (jsDiastolic r = none → "High Diastolic BP" ∉ fl ∧
        ("High Systolic BP" ∈ fl ↔ ∃ v, jsSystolic r = some v ∧ 140 < v))) ∧
    (∀ (db : Db) (uid : Nat), ∃ resp, analysis db uid = .ok resp) ∧
    (∀ (id uid : Nat) (nm : String) (age : Int) (notes date : Option String),
      flags ⟨id, uid, nm, age, some "/95", none, notes, date⟩ = .ok ["High Diastolic BP"] ∧
      flags ⟨id, uid, nm, age, some "abc/95", none, notes, date⟩ = .ok ["High Diastolic BP"] ∧
      flags ⟨id, uid, nm, age, some "160/95", none, notes, date⟩ =
        .ok ["High Systolic BP", "High Diastolic BP"] ∧
      flags ⟨id, uid, nm, age, some "", none, notes, date⟩ = .ok [] ∧
      flags ⟨id, uid, nm, age, none, none, notes, date⟩ = .ok [] ∧
      flags ⟨id, uid, nm, age, some "abc", none, notes, date⟩ = .ok []) := by
  refine ⟨fun r => ⟨_, flags_eq_selected r, ?_, ?_, ?_⟩, fun db uid => ⟨_, analysis_eq db uid⟩,
    fun id uid nm age notes date => ⟨rfl, rfl, rfl, rfl, rfl, rfl⟩⟩
  · intro h
    rw [mem_selectedFlags_systolic, mem_selectedFlags_diastolic]
    unfold jsSystolic jsDiastolic
    rcases h with h | h <;> rw [h] <;> decide
  · intro h
    rw [mem_selectedFlags_systolic, mem_selectedFlags_diastolic, h]
    exact ⟨by decide, jsGt_eq_true_iff _ _⟩
  · intro h
    rw [mem_selectedFlags_systolic, mem_selectedFlags_diastolic, h]
    exact ⟨by decide, jsGt_eq_true_iff _ _⟩

/-- The degradation at blood pressure "abc/95": the systolic side does not
parse, the diastolic flag is still attached. -/
theorem flags_total_and_degrade_witness :
    ∃ fl, flags ⟨1, 1, "Ann", 50, some "abc/95", none, none, none⟩ = .ok fl ∧
      "High Systolic BP" ∉ fl ∧
      ("High Diastolic BP" ∈ fl ↔
        ∃ v, jsDiastolic ⟨1, 1, "Ann", 50, some "abc/95", none, none, none⟩ = some v ∧ 90 < v) := by
  obtain ⟨fl, hfl, _, hs, _⟩ :=
    flags_total_and_degrade.1 ⟨1, 1, "Ann", 50, some "abc/95", none, none, none⟩
  exact ⟨fl, hfl, hs rfl⟩

/-! ## The risk query and the statistics -/

/-- The risk query in closed form: its rows are exactly the user's rows with
cholesterol > 200, or with the query's own reading (`CAST .. AS UNSIGNED`) of
the text before the first '/' above 140, or of the text after the last '/'
above 90, each of them once. -/
theorem risks_exactly_rows_at_risk (db : Db) (uid : Nat) :
    (riskQuery db uid).Perm
      (db.rows.filter (fun r => decide (r.user_id = uid ∧
        (sqlGt r.cholesterol 200 = some true ∨ sqlGt (bpPartSql r 1) 140 = some true ∨
          sqlGt (bpPartSql r (-1)) 90 = some true)))) ∧
    (∀ r, r ∈ riskQuery db uid ↔ r ∈ db.rows ∧ r.user_id = uid ∧
      ((∃ c, r.cholesterol = some c ∧ 200 < c) ∨
       (∃ s, r.blood_pressure = some s ∧ 140 < castUnsigned (substringIndex s '/' 1)) ∨
       (∃ s, r.blood_pressure = some s ∧ 90 < castUnsigned (substringIndex s '/' (-1))))) ∧
    (∀ (s : String) (pre suf : List Char), s.data = pre ++ '/' :: suf → '/' ∉ pre →
      substringIndex s '/' 1 = String.mk pre) ∧
    (∀ (s : String) (pre suf : List Char), s.data = pre ++ '/' :: suf → '/' ∉ suf →
      substringIndex s '/' (-1) = String.mk suf) ∧
    (∀ s : String,
      (∀ c ∈ s.data.head?, c ≠ ' ' ∧ c ≠ '\t' ∧ c ≠ '+' ∧ c ≠ '-' ∧ digitValue 10 c = none) →
      castUnsigned s = 0) := by
  refine ⟨?_, ?_, substringIndex_first, substringIndex_last, castUnsigned_no_number⟩
  · unfold riskQuery sqlWhere
    refine (List.perm_insertionSort _ _).trans ?_
    have hf : (fun r => riskCondition uid r == some true) =
        (fun r => decide (r.user_id = uid ∧
          (sqlGt r.cholesterol 200 = some true ∨ sqlGt (bpPartSql r 1) 140 = some true ∨
            sqlGt (bpPartSql r (-1)) 90 = some true))) := by
      funext r
      rw [Bool.eq_iff_iff]
      simp only [beq_iff_eq, decide_eq_true_eq]
      exact riskCondition_eq_true uid r
    rw [hf]
  · intro r
    rw [mem_riskQuery, riskCondition_eq_true, sqlGt_eq_some_true, bpPartSql_gt, bpPartSql_gt]

/-- The text rules of the risk query at "150/95": the text before the first
'/' is "150", the text after the last one is "95", and "abc" reads as 0. -/
theorem risks_exactly_rows_at_risk_witness :
    substringIndex "150/95" '/' 1 = "150" ∧ substringIndex "150/95" '/' (-1) = "95" ∧
      castUnsigned "abc" = 0 :=
  ⟨(risks_exactly_rows_at_risk ⟨[], 1⟩ 1).2.2.1 "150/95" ['1', '5', '0'] ['9', '5'] rfl
      (by decide),
   (risks_exactly_rows_at_risk ⟨[], 1⟩ 1).2.2.2.1 "150/95" ['1', '5', '0'] ['9', '5'] rfl
      (by decide),
   (risks_exactly_rows_at_risk ⟨[], 1⟩ 1).2.2.2.2 "abc" (by decide)⟩

/-- The count `high_bp_count` in closed form: the number of the user's rows
whose systolic reading by the query (`CAST .. AS UNSIGNED`) exceeds 140; a row
whose reading is at most 140 leaves the count as it is without the row. -/
theorem high_bp_count_systolic_only (uid : Nat) :
    (∀ db : Db, (dashboardStats db uid).high_bp_count =
      (db.rows.filter (fun r => decide (r.user_id = uid))).countP
        (fun r => decide (sqlGt (bpPartSql r 1) 140 = some true))) ∧
    (∀ (before after : List Row) (n m : Nat) (r : Row) (s : String), r.user_id = uid →
      r.blood_pressure = some s → castUnsigned (substringIndex s '/' 1) ≤ 140 →
      90 < castUnsigned (substringIndex s '/' (-1)) →
      (dashboardStats ⟨before ++ r :: after, n⟩ uid).high_bp_count =
        (dashboardStats ⟨before ++ after, m⟩ uid).high_bp_count ∧
      r ∈ riskQuery ⟨before ++ r :: after, n⟩ uid) ∧
    (∀ (id : Nat) (nm : String) (age : Int) (chol : Option Int) (notes date : Option String),
      (dashboardStats ⟨[⟨id, uid, nm, age, some "120/95", chol, notes, date⟩], id + 1⟩
        uid).high_bp_count = 0 ∧
      ⟨id, uid, nm, age, some "120/95", chol, notes, date⟩ ∈
        riskQuery ⟨[⟨id, uid, nm, age, some "120/95", chol, notes, date⟩], id + 1⟩ uid) := by
  have hcount : ∀ db : Db, (dashboardStats db uid).high_bp_count =
      (db.rows.filter (fun r => decide (r.user_id = uid))).countP
        (fun r => decide (sqlGt (bpPartSql r 1) 140 = some true)) := by
    intro db
    unfold dashboardStats
    simp only []
    rw [sqlCount_caseWhen, sqlWhere_ownedBy]
  have hrow : ∀ (before after : List Row) (n m : Nat) (r : Row) (s : String), r.user_id = uid →
      r.blood_pressure = some s → castUnsigned (substringIndex s '/' 1) ≤ 140 →
      90 < castUnsigned (substringIndex s '/' (-1)) →
      (dashboardStats ⟨before ++ r :: after, n⟩ uid).high_bp_count =
        (dashboardStats ⟨before ++ after, m⟩ uid).high_bp_count ∧
      r ∈ riskQuery ⟨before ++ r :: after, n⟩ uid := by
    intro before after n m r s hu hbp hsys hdia
    constructor
    · rw [hcount, hcount]
      have hno : ¬ (sqlGt (bpPartSql r 1) 140 = some true) := by
        rw [bpPartSql_gt]
        rintro ⟨s', hs', hlt⟩
        rw [hbp] at hs'
        cases hs'
        omega
      simp [List.filter_append, List.filter_cons, hu, List.countP_append, List.countP_cons, hno]
    · rw [mem_riskQuery, riskCondition_eq_true]
      refine ⟨by simp, hu, Or.inr (Or.inr ?_)⟩
      rw [bpPartSql_gt]
      exact ⟨s, hbp, hdia⟩
  refine ⟨hcount, hrow, ?_⟩
  intro id nm age chol notes date
  have h := hrow [] [] (id + 1) 0 ⟨id, uid, nm, age, some "120/95", chol, notes, date⟩ "120/95"
    rfl rfl (by decide) (by decide)
  refine ⟨?_, h.2⟩
  rw [List.nil_append] at h
  rw [h.1, hcount]
  rfl

/-- The asymmetry at one row with blood pressure "120/95" next to one with
"150/80": only the second is counted, both are selected by the risk query. -/
theorem high_bp_count_systolic_only_witness :
    (dashboardStats ⟨[⟨1, 1, "Ann", 50, some "150/80", none, none, none⟩] ++
        ⟨2, 1, "Bob", 40, some "120/95", none, none, none⟩ :: [], 3⟩ 1).high_bp_count =
      (dashboardStats ⟨[⟨1, 1, "Ann", 50, some "150/80", none, none, none⟩] ++ [], 2⟩
        1).high_bp_count ∧
    (⟨2, 1, "Bob", 40, some "120/95", none, none, none⟩ : Row) ∈
      riskQuery ⟨[⟨1, 1, "Ann", 50, some "150/80", none, none, none⟩] ++
        ⟨2, 1, "Bob", 40, some "120/95", none, none, none⟩ :: [], 3⟩ 1 :=
  (high_bp_count_systolic_only 1).2.1 [⟨1, 1, "Ann", 50, some "150/80", none, none, none⟩] []
    3 2 ⟨2, 1, "Bob", 40, some "120/95", none, none, none⟩ "120/95" rfl rfl (by decide)
    (by decide)

/-- C5 at the record without cholesterol and with blood pressure "-5/80": no
condition holds for it, the integer parse of "-5" being -5 and that of "80"
being 80, yet the risk query selects it, its cast of "-5" to an unsigned
number being 18446744073709551611; the flag mapping of the same handler reads
-5 and attaches no flag. -/
theorem risk_query_selects_negative_reading :
    riskQuery ⟨[⟨1, 1, "Ann", 50, some "-5/80", none, none, none⟩], 2⟩ 1 =
      [⟨1, 1, "Ann", 50, some "-5/80", none, none, none⟩] ∧
    specAtRisk ⟨1, 1, "Ann", 50, some "-5/80", none, none, none⟩ = false ∧
    specSystolic ⟨1, 1, "Ann", 50, some "-5/80", none, none, none⟩ = some (-5) ∧
    specDiastolic ⟨1, 1, "Ann", 50, some "-5/80", none, none, none⟩ = some 80 ∧
    bpPartSql ⟨1, 1, "Ann", 50, some "-5/80", none, none, none⟩ 1 =
      some 18446744073709551611 ∧
    flags ⟨1, 1, "Ann", 50, some "-5/80", none, none, none⟩ = .ok [] ∧
    riskQuery ⟨[⟨2, 1, "Bob", 40, some "120/80", some 180, none, none⟩], 3⟩ 1 = [] ∧
    specAtRisk ⟨2, 1, "Bob", 40, some "120/80", some 180, none, none⟩ = false := by
  refine ⟨by decide, by decide, by decide, by decide, by decide, rfl, by decide, by decide⟩

/-- C6 at the record with blood pressure "-5/95", systolic -5 and diastolic 95:
it is counted in `high_bp_count`, the query's cast of "-5" to an unsigned
number being above 140, although its systolic does not exceed 140; the record
with "120/95" is not counted and is selected by the risk query. -/
theorem high_bp_count_counts_negative_reading :
    (dashboardStats ⟨[⟨1, 1, "Ann", 50, some "-5/95", none, none, none⟩], 2⟩
      1).high_bp_count = 1 ∧
    specSystolic ⟨1, 1, "Ann", 50, some "-5/95", none, none, none⟩ = some (-5) ∧
    jsGt (specSystolic ⟨1, 1, "Ann", 50, some "-5/95", none, none, none⟩) 140 = false ∧
    specDiastolic ⟨1, 1, "Ann", 50, some "-5/95", none, none, none⟩ = some 95 ∧
    bpPartSql ⟨1, 1, "Ann", 50, some "-5/95", none, none, none⟩ 1 =
      some 18446744073709551611 ∧
    (dashboardStats ⟨[⟨2, 1, "Bob", 40, some "120/95", none, none, none⟩], 3⟩
      1).high_bp_count = 0 ∧
    riskQuery ⟨[⟨2, 1, "Bob", 40, some "120/95", none, none, none⟩], 3⟩ 1 =
      [⟨2, 1, "Bob", 40, some "120/95", none, none, none⟩] := by
  refine ⟨by decide, by decide, by decide, by decide, by decide, by decide, by decide⟩

/-- C7, as stated, fails: for the cholesterol values 200, 201 and 201 the
statistics give 200.6667, the four-digit decimal of `AVG`, not the quotient
602 / 3. -/
theorem avg_is_a_four_digit_decimal :
    (dashboardStats ⟨[⟨1, 1, "Ann", 50, none, some 200, none, none⟩,
        ⟨2, 1, "Bob", 50, none, some 201, none, none⟩,
        ⟨3, 1, "Cy", 50, none, some 201, none, none⟩], 4⟩ 1).avg_cholesterol =
      some ((2006667 : ℚ) / 10000) ∧
    (dashboardStats ⟨[⟨1, 1, "Ann", 50, none, some 200, none, none⟩,
        ⟨2, 1, "Bob", 50, none, some 201, none, none⟩,
        ⟨3, 1, "Cy", 50, none, some 201, none, none⟩], 4⟩ 1).avg_cholesterol ≠
      some (((200 + 201 + 201 : Int) : ℚ) / (3 : Nat)) := by
  have h : (dashboardStats ⟨[⟨1, 1, "Ann", 50, none, some 200, none, none⟩,
        ⟨2, 1, "Bob", 50, none, some 201, none, none⟩,
        ⟨3, 1, "Cy", 50, none, some 201, none, none⟩], 4⟩ 1).avg_cholesterol =
      some ((2006667 : ℚ) / 10000) := by
    simp [dashboardStats, sqlWhere, ownedBy, sqlAvg, decimalMean]
  refine ⟨h, ?_⟩
  rw [h]
  norm_num

/-- C7, amended: when at least one of the user's rows has a cholesterol value,
`avg_cholesterol` is the sum of the present values divided by the number of
rows that have one, rounded to four decimal places, `avg_age` is the mean of
`age` over all the rows, rounded likewise, `total_records` is their number and
`high_cholesterol_count` the number of rows with cholesterol > 200. -/
theorem dashboard_stats_means_and_counts (db : Db) (uid : Nat)
    (h : ∃ r ∈ db.rows, r.user_id = uid ∧ r.cholesterol ≠ none) :
    (dashboardStats db uid).avg_cholesterol =
      some (decimalMean
        ((db.rows.filter (fun r => decide (r.user_id = uid))).filterMap
          (fun r => r.cholesterol)).sum
        ((db.rows.filter (fun r => decide (r.user_id = uid))).filterMap
          (fun r => r.cholesterol)).length) ∧
    0 < ((db.rows.filter (fun r => decide (r.user_id = uid))).filterMap
      (fun r => r.cholesterol)).length ∧
    (dashboardStats db uid).avg_age =
      some (decimalMean
        ((db.rows.filter (fun r => decide (r.user_id = uid))).map (fun r => r.age)).sum
        (db.rows.filter (fun r => decide (r.user_id = uid))).length) ∧
    0 < (db.rows.filter (fun r => decide (r.user_id = uid))).length ∧
    (∀ (s : Int) (n : Nat), 0 < n →
      |decimalMean s n - (s : ℚ) / (n : ℚ)| ≤ 1 / 20000 ∧
      ∃ z : Int, decimalMean s n = (z : ℚ) / 10000) ∧
    (dashboardStats db uid).total_records =
      (db.rows.filter (fun r => decide (r.user_id = uid))).length ∧
    (dashboardStats db uid).high_cholesterol_count =
      (db.rows.filter (fun r => decide (r.user_id = uid))).countP
        (fun r => decide (∃ c, r.cholesterol = some c ∧ 200 < c)) := by
  obtain ⟨r, hr, hu, hc⟩ := h
  have hmem : r ∈ db.rows.filter (fun r => decide (r.user_id = uid)) := by
    rw [List.mem_filter]
    exact ⟨hr, by simp [hu]⟩
  obtain ⟨c, hc'⟩ := Option.ne_none_iff_exists'.mp hc
  have hcmem : c ∈ (db.rows.filter (fun r => decide (r.user_id = uid))).filterMap
      (fun r => r.cholesterol) := by
    rw [List.mem_filterMap]
    exact ⟨r, hmem, hc'⟩
  have hcs : (db.rows.filter (fun r => decide (r.user_id = uid))).filterMap
      (fun r => r.cholesterol) ≠ [] := List.ne_nil_of_mem hcmem
  have hrs : db.rows.filter (fun r => decide (r.user_id = uid)) ≠ [] := List.ne_nil_of_mem hmem
  have e1 : ∀ l : List Row, List.filterMap id (l.map (fun r => r.cholesterol)) =
      l.filterMap (fun r => r.cholesterol) := by
    intro l; rw [List.filterMap_map]; rfl
  have e2 : ∀ l : List Row, List.filterMap id (l.map (fun r => some r.age)) =
      l.map (fun r => r.age) := by
    intro l
    induction l with
    | nil => rfl
    | cons a l ih => simpa using ih
  unfold dashboardStats
  simp only []
  rw [sqlWhere_ownedBy]
  refine ⟨?_, List.length_pos.mpr hcs, ?_, List.length_pos.mpr hrs,
    fun s n hn => ⟨decimalMean_close s n hn, decimalMean_scaled s n⟩, rfl, ?_⟩
  · rw [sqlAvg_of_ne_nil _ (by rw [e1]; exact hcs), e1]
  · rw [sqlAvg_of_ne_nil _ (by rw [e2]; simpa using hrs), e2, List.length_map]
  · rw [sqlCount_caseWhen]
    congr 1
    funext x
    rw [Bool.eq_iff_iff]
    simp only [decide_eq_true_eq]
    exact sqlGt_eq_some_true _ _

/-- The statistics of the one-row scenario (age 50, cholesterol 210, blood
pressure "150/95"): total 1, average age 50, average cholesterol 210, one row
with high cholesterol and one with high blood pressure. -/
theorem dashboard_stats_means_and_counts_witness :
    (dashboardStats ⟨[⟨1, 1, "Ann", 50, some "150/95", some 210, none, none⟩], 2⟩
      1).avg_cholesterol = some 210 ∧
    (dashboardStats ⟨[⟨1, 1, "Ann", 50, some "150/95", some 210, none, none⟩], 2⟩
      1).avg_age = some 50 ∧
    (dashboardStats ⟨[⟨1, 1, "Ann", 50, some "150/95", some 210, none, none⟩], 2⟩
      1).total_records = 1 ∧
    (dashboardStats ⟨[⟨1, 1, "Ann", 50, some "150/95", some 210, none, none⟩], 2⟩
      1).high_cholesterol_count = 1 ∧
    (dashboardStats ⟨[⟨1, 1, "Ann", 50, some "150/95", some 210, none, none⟩], 2⟩
      1).high_bp_count = 1 := by
  have h := dashboard_stats_means_and_counts
    ⟨[⟨1, 1, "Ann", 50, some "150/95", some 210, none, none⟩], 2⟩ 1
    ⟨⟨1, 1, "Ann", 50, some "150/95", some 210, none, none⟩, by simp, rfl, by simp⟩
  refine ⟨?_, ?_, ?_, ?_, rfl⟩
  · rw [h.1]
    simp [decimalMean]
    norm_num
  · rw [h.2.2.1]
    simp [decimalMean]
    norm_num
  · rw [h.2.2.2.2.2.1]; rfl
  · rw [h.2.2.2.2.2.2]; simp

/-- C8: for a user with no rows the dashboard statistics are total 0, both
averages NULL and both counts 0, and the analysis answers, without an error,
a count of 0, NULL average, minimum and maximum, and an empty list of risks. -/
theorem empty_user_stats_and_analysis (db : Db) (uid : Nat)
    (h : ∀ r ∈ db.rows, r.user_id ≠ uid) :
    dashboardStats db uid =
      { total_records := 0, avg_age := none, avg_cholesterol := none,
        high_cholesterol_count := 0, high_bp_count := 0 } ∧
    analysis db uid = .ok
      { stats := { avg_age := none, avg_chol := none, min_chol := none, max_chol := none,
                   total_count := 0 },
        risks := [] } := by
  have hrs : sqlWhere (ownedBy uid) db.rows = [] := by
    rw [sqlWhere_ownedBy, List.filter_eq_nil_iff]
    intro r hr
    simpa using h r hr
  have hq : riskQuery db uid = [] := by
    apply List.eq_nil_iff_forall_not_mem.mpr
    intro r hr
    rw [mem_riskQuery, riskCondition_eq_true] at hr
    exact h r hr.1 hr.2.1
  constructor
  · unfold dashboardStats
    simp only []
    rw [hrs]
    rfl
  · rw [analysis_eq, hq]
    unfold analysisStats
    simp only []
    rw [hrs]
    rfl

/-- The empty case for user 2 on a table that holds only a row of user 1. -/
theorem empty_user_stats_and_analysis_witness :
    dashboardStats ⟨[⟨1, 1, "Ann", 50, some "150/95", some 210, none, none⟩], 2⟩ 2 =
      { total_records := 0, avg_age := none, avg_cholesterol := none,
        high_cholesterol_count := 0, high_bp_count := 0 } ∧
    analysis ⟨[⟨1, 1, "Ann", 50, some "150/95", some 210, none, none⟩], 2⟩ 2 = .ok
      { stats := { avg_age := none, avg_chol := none, min_chol := none, max_chol := none,
                   total_count := 0 },
        risks := [] } :=
  empty_user_stats_and_analysis ⟨[⟨1, 1, "Ann", 50, some "150/95", some 210, none, none⟩], 2⟩ 2
    (by decide)

/-! ## Creating and reading back a record -/

/-- C9, as stated, fails: an age of -5 and the age "0" a form sends are both
not positive, yet neither request is answered with the validation error, so
"rejected if and only if the name is empty or missing or the age is missing or
not positive" is false at both requests. -/
theorem create_accepts_nonpositive_age :
    ¬ ((postRecords ⟨[], 1⟩ 1
          { patient_name := .str "Ann", age := .num (-5), blood_pressure := .undefined,
            cholesterol := .undefined, notes := .undefined, date := .undefined }).1.status = 400 ↔
        (nameEmptyOrMissing (.str "Ann") ∨ ageMissingOrNotPositive (.num (-5)))) ∧
    ¬ ((postRecords ⟨[], 1⟩ 1
          { patient_name := .str "Ann", age := .str "0", blood_pressure := .undefined,
            cholesterol := .undefined, notes := .undefined, date := .undefined }).1.status = 400 ↔
        (nameEmptyOrMissing (.str "Ann") ∨ ageMissingOrNotPositive (.str "0"))) := by
  have h5 : ageMissingOrNotPositive (.num (-5)) := by
    show (-5 : ℚ) ≤ 0
    norm_num
  have h0 : ageMissingOrNotPositive (.str "0") := by
    show (0 : Int) ≤ 0
    exact le_refl 0
  constructor
  · intro h
    exact absurd (h.mpr (Or.inr h5)) (by decide)
  · intro h
    exact absurd (h.mpr (Or.inr h0)) (by decide)

/-- C9, amended: creation is answered with the validation error, and the table
is left as it was, exactly when `patient_name` or `age` is falsy in JavaScript,
that is missing, `null`, `false`, the number 0 or the empty string; any other
age, such as -5 or the string "0", passes the validation. -/
theorem create_rejects_iff_falsy (db : Db) (uid : Nat) (b : RecordBody) :
    ((postRecords db uid b).1.status = 400 ↔
      (truthy b.patient_name = false ∨ truthy b.age = false)) ∧
    ((truthy b.patient_name = false ∨ truthy b.age = false) →
      postRecords db uid b =
        ({ status := 400, body := .message "Patient name and age are required" }, db)) ∧
    (∀ v : JsVal, truthy v = false ↔
      v = .undefined ∨ v = .null ∨ v = .bool false ∨ v = .num 0 ∨ v = .str "") ∧
    truthy (.num (-5)) = true ∧ truthy (.str "0") = true := by
  have hrej : (truthy b.patient_name = false ∨ truthy b.age = false) →
      postRecords db uid b =
        ({ status := 400, body := .message "Patient name and age are required" }, db) := by
    intro h
    unfold postRecords
    rcases h with h | h <;> simp [h]
  refine ⟨⟨?_, fun h => by rw [hrej h]⟩, hrej, truthy_eq_false_iff, by decide, by decide⟩
  intro h
  by_contra hne
  have hn : truthy b.patient_name = true := by
    cases hv : truthy b.patient_name
    · exact absurd (Or.inl hv) hne
    · rfl
  have ha : truthy b.age = true := by
    cases hv : truthy b.age
    · exact absurd (Or.inr hv) hne
    · rfl
  unfold postRecords at h
  simp only [hn, ha, Bool.not_true, Bool.or_self, Bool.false_eq_true, if_false] at h
  split at h <;> simp at h

/-- The validation at an age of 0: the request is refused and the table is
unchanged. -/
theorem create_rejects_iff_falsy_witness :
    postRecords ⟨[], 1⟩ 1
      { patient_name := .str "Ann", age := .num 0, blood_pressure := .undefined,
        cholesterol := .undefined, notes := .undefined, date := .undefined } =
      ({ status := 400, body := .message "Patient name and age are required" }, ⟨[], 1⟩) :=
  (create_rejects_iff_falsy ⟨[], 1⟩ 1
    { patient_name := .str "Ann", age := .num 0, blood_pressure := .undefined,
      cholesterol := .undefined, notes := .undefined, date := .undefined }).2.1
    (Or.inr (by decide))

/-- C10, as stated, fails: a valid record whose notes are the empty string is
created, and reading it back gives absent notes, not the empty string. -/
theorem create_get_drops_empty_notes :
    ("Ann" : String) ≠ "" ∧ (0 : Int) < 50 ∧
    postRecords ⟨[], 1⟩ 1 (RecordInput.toBody ⟨"Ann", 50, none, none, some "", none⟩) =
      ({ status := 200, body := .created 1 "Record created successfully" },
        ⟨[⟨1, 1, "Ann", 50, none, none, none, none⟩], 2⟩) ∧
    getRecord ⟨[⟨1, 1, "Ann", 50, none, none, none, none⟩], 2⟩ 1 1 =
      { status := 200, body := .record ⟨1, 1, "Ann", 50, none, none, none, none⟩ } ∧
    (⟨1, 1, "Ann", 50, none, none, none, none⟩ : Row).notes ≠
      (⟨"Ann", 50, none, none, some "", none⟩ : RecordInput).notes := by
  refine ⟨by decide, by decide, by decide, by decide, by decide⟩

/-- C10, amended: for a valid record input (non-empty name, positive age) whose
cholesterol is not 0, create followed by get with the returned id and the same
owner returns a row with that id and owner whose name, age and cholesterol
equal the input, and whose blood pressure, notes and date equal the input
with an empty string read as absent. -/
theorem create_then_get (db : Db) (uid : Nat) (inp : RecordInput) (hwf : db.WF)
    (hn : inp.patient_name ≠ "") (ha : 0 < inp.age) (hc : inp.cholesterol ≠ some 0) :
    ∃ (id : Nat) (db' : Db) (r : Row),
      postRecords db uid inp.toBody =
        ({ status := 200, body := .created id "Record created successfully" }, db') ∧
      getRecord db' uid id = { status := 200, body := .record r } ∧
      r.id = id ∧ r.user_id = uid ∧
      r.patient_name = inp.patient_name ∧ r.age = inp.age ∧
      r.blood_pressure = nonEmptyText inp.blood_pressure ∧
      r.cholesterol = inp.cholesterol ∧
      r.notes = nonEmptyText inp.notes ∧
      r.date = nonEmptyText inp.date ∧
      db'.WF := by
  have hq : ((inp.age : Int) : ℚ) ≠ 0 := by
    have : inp.age ≠ 0 := by omega
    exact_mod_cast this
  refine ⟨db.nextId,
    { rows := db.rows ++ [⟨db.nextId, uid, inp.patient_name, inp.age,
        nonEmptyText inp.blood_pressure, inp.cholesterol, nonEmptyText inp.notes,
        nonEmptyText inp.date⟩], nextId := db.nextId + 1 },
    ⟨db.nextId, uid, inp.patient_name, inp.age, nonEmptyText inp.blood_pressure,
      inp.cholesterol, nonEmptyText inp.notes, nonEmptyText inp.date⟩,
    ?_, ?_, rfl, rfl, rfl, rfl, rfl, rfl, rfl, rfl, ?_⟩
  · unfold postRecords insertRecord RecordInput.toBody
    simp only [truthy, toTextColumn_orNull_optText, toIntColumn_orNull_optNum _ hc]
    simp [hn, hq, toTextColumn, toIntColumn]
  · unfold getRecord
    have hsplit : sqlWhere (fun r => sqlAnd (some (decide (r.id = db.nextId))) (ownedBy uid r))
        (db.rows ++ [⟨db.nextId, uid, inp.patient_name, inp.age,
          nonEmptyText inp.blood_pressure, inp.cholesterol, nonEmptyText inp.notes,
          nonEmptyText inp.date⟩]) =
        [⟨db.nextId, uid, inp.patient_name, inp.age, nonEmptyText inp.blood_pressure,
          inp.cholesterol, nonEmptyText inp.notes, nonEmptyText inp.date⟩] := by
      have h0 := sqlWhere_id_of_wf db uid hwf
      unfold sqlWhere at h0 ⊢
      rw [List.filter_append, h0]
      simp [sqlAnd, ownedBy]
    simp only [hsplit]
  · intro r hr
    simp only [List.mem_append, List.mem_singleton] at hr
    rcases hr with hr | hr
    · exact Nat.lt_succ_of_lt (hwf r hr)
    · subst hr
      exact Nat.lt_succ_self _

/-- Create then get on the empty table for a record with every field given. -/
theorem create_then_get_witness :
    ∃ (id : Nat) (db' : Db) (r : Row),
      postRecords ⟨[], 1⟩ 7
          (RecordInput.toBody ⟨"Ann", 50, some "150/95", some 210, some "stable",
            some "2024-01-02"⟩) =
        ({ status := 200, body := .created id "Record created successfully" }, db') ∧
      getRecord db' 7 id = { status := 200, body := .record r } ∧
      r.id = id ∧ r.user_id = 7 ∧
      r.patient_name = "Ann" ∧ r.age = 50 ∧
      r.blood_pressure = nonEmptyText (some "150/95") ∧
      r.cholesterol = some 210 ∧
      r.notes = nonEmptyText (some "stable") ∧
      r.date = nonEmptyText (some "2024-01-02") ∧
      db'.WF :=
  create_then_get ⟨[], 1⟩ 7 ⟨"Ann", 50, some "150/95", some 210, some "stable", some "2024-01-02"⟩
    (by intro r hr; cases hr) (by decide) (by decide) (by decide)

/-! ## Ownership, update and listing -/

/-- C11: for owners `a` and `b` with `a ≠ b` and a record owned by `b` (ids
being unique), and also for an id that exists nowhere: get and delete issued by
`a` answer 404, update answers 404 whenever its fields pass the validation and
never reports success, and every record of the store stays as it is. -/
theorem foreign_or_missing_id_is_not_found (db : Db) (a : Nat) (body : RecordBody) :
    (∀ (b : Nat) (r : Row), a ≠ b → r ∈ db.rows → r.user_id = b → db.UniqueIds →
      notFoundEverywhere db a r.id body) ∧
    (∀ id : Nat, (∀ x ∈ db.rows, x.id ≠ id) → notFoundEverywhere db a id body) := by
  constructor
  · intro b r hab hr hb huniq
    apply notFoundEverywhere_of_no_hit
    intro x hx hid
    have hxr : x = r := List.inj_on_of_nodup_map huniq hx hr hid
    rw [hxr, hb]
    exact fun e => hab e.symm
  · intro id hid
    apply notFoundEverywhere_of_no_hit
    intro x hx hx'
    exact absurd hx' (hid x hx)

/-- User 1 asks for record 5 of user 2, and for the id 9 that no record has,
with a valid body: 404 each time and an unchanged table. -/
theorem foreign_or_missing_id_is_not_found_witness :
    notFoundEverywhere ⟨[⟨5, 2, "Bob", 40, none, none, none, none⟩], 6⟩ 1 5
      (RecordInput.toBody ⟨"Eve", 30, none, none, none, none⟩) ∧
    notFoundEverywhere ⟨[⟨5, 2, "Bob", 40, none, none, none, none⟩], 6⟩ 1 9
      (RecordInput.toBody ⟨"Eve", 30, none, none, none, none⟩) :=
  ⟨(foreign_or_missing_id_is_not_found ⟨[⟨5, 2, "Bob", 40, none, none, none, none⟩], 6⟩ 1
      (RecordInput.toBody ⟨"Eve", 30, none, none, none, none⟩)).1 2
      ⟨5, 2, "Bob", 40, none, none, none, none⟩ (by decide) (by simp) rfl
      (by unfold Db.UniqueIds; simp),
   (foreign_or_missing_id_is_not_found ⟨[⟨5, 2, "Bob", 40, none, none, none, none⟩], 6⟩ 1
      (RecordInput.toBody ⟨"Eve", 30, none, none, none, none⟩)).2 9 (by decide)⟩

/-- C12, as stated, fails: a successful update whose notes are the empty
string leaves the record with absent notes, not with the request's value. -/
theorem update_drops_empty_notes :
    putRecord ⟨[⟨1, 1, "Ann", 50, none, none, some "old", none⟩], 2⟩ 1 1
        (RecordInput.toBody ⟨"Ann", 51, none, none, some "", none⟩) =
      ({ status := 200, body := .message "Record updated successfully" },
        ⟨[⟨1, 1, "Ann", 51, none, none, none, none⟩], 2⟩) ∧
    (⟨1, 1, "Ann", 51, none, none, none, none⟩ : Row).notes ≠
      (⟨"Ann", 51, none, none, some "", none⟩ : RecordInput).notes := by
  refine ⟨by decide, by decide⟩

/-- C12, amended: after a successful update (with a cholesterol other than 0)
every row keeps its id and its owner, every row but the one updated is
unchanged, and the updated row holds the request's name, age and cholesterol
and the request's blood pressure, notes and date, an optional field that is
omitted or sent as the empty string becoming absent. -/
theorem update_replaces_fields (db : Db) (uid id : Nat) (inp : RecordInput)
    (hc : inp.cholesterol ≠ some 0)
    (hs : (putRecord db uid id inp.toBody).1.status = 200) :
    putRecord db uid id inp.toBody =
      ({ status := 200, body := .message "Record updated successfully" },
        { rows := db.rows.map (fun r =>
            if r.id = id ∧ r.user_id = uid then
              { id := r.id, user_id := r.user_id, patient_name := inp.patient_name,
                age := inp.age, blood_pressure := nonEmptyText inp.blood_pressure,
                cholesterol := inp.cholesterol, notes := nonEmptyText inp.notes,
                date := nonEmptyText inp.date }
            else r),
          nextId := db.nextId }) ∧
    (putRecord db uid id inp.toBody).2.rows.map (fun r => (r.id, r.user_id)) =
      db.rows.map (fun r => (r.id, r.user_id)) ∧
    (∃ r ∈ db.rows, r.id = id ∧ r.user_id = uid) := by
  have hmap : (fun r : Row =>
      if hitsRecord id uid r then
        ({ id := r.id, user_id := r.user_id, patient_name := inp.patient_name,
           age := inp.age, blood_pressure := nonEmptyText inp.blood_pressure,
           cholesterol := inp.cholesterol, notes := nonEmptyText inp.notes,
           date := nonEmptyText inp.date } : Row)
      else r) =
      (fun r : Row =>
      if r.id = id ∧ r.user_id = uid then
        ({ id := r.id, user_id := r.user_id, patient_name := inp.patient_name,
           age := inp.age, blood_pressure := nonEmptyText inp.blood_pressure,
           cholesterol := inp.cholesterol, notes := nonEmptyText inp.notes,
           date := nonEmptyText inp.date } : Row)
      else r) := by
    funext r
    by_cases h : hitsRecord id uid r = true
    · rw [if_pos h, if_pos ((hitsRecord_iff id uid r).mp h)]
    · rw [if_neg h, if_neg (fun e => h ((hitsRecord_iff id uid r).mpr e))]
  have hn : truthy (.str inp.patient_name) = true := by
    cases h : truthy (.str inp.patient_name)
    · have h400 : (putRecord db uid id inp.toBody).1.status = 400 := by
        unfold putRecord RecordInput.toBody
        simp [h]
      rw [h400] at hs
      exact absurd hs (by decide)
    · rfl
  have ha : truthy (.num inp.age) = true := by
    cases h : truthy (.num inp.age)
    · have h400 : (putRecord db uid id inp.toBody).1.status = 400 := by
        unfold putRecord RecordInput.toBody
        simp [h]
      rw [h400] at hs
      exact absurd hs (by decide)
    · rfl
  have hput : putRecord db uid id inp.toBody =
      (match db.rows.filter (hitsRecord id uid) with
       | [] => ({ status := 404, body := .message "Record not found or unauthorized" }, db)
       | _ :: _ =>
         ({ status := 200, body := .message "Record updated successfully" },
           { rows := db.rows.map (fun r =>
               if r.id = id ∧ r.user_id = uid then
                 { id := r.id, user_id := r.user_id, patient_name := inp.patient_name,
                   age := inp.age, blood_pressure := nonEmptyText inp.blood_pressure,
                   cholesterol := inp.cholesterol, notes := nonEmptyText inp.notes,
                   date := nonEmptyText inp.date }
               else r),
             nextId := db.nextId })) := by
    rw [← hmap]
    unfold putRecord updateRecord
    simp only [RecordInput.toBody, hn, ha, Bool.not_true, Bool.or_self, Bool.false_eq_true,
      if_false, toTextColumn_orNull_optText, toIntColumn_orNull_optNum _ hc]
    cases hf : db.rows.filter (hitsRecord id uid) with
    | nil => simp
    | cons m ms => simp [toTextColumn, toIntColumn]
  cases hf : db.rows.filter (hitsRecord id uid) with
  | nil =>
    rw [hput, hf] at hs
    simp at hs
  | cons m ms =>
    rw [hput, hf]
    refine ⟨rfl, ?_, ?_⟩
    · simp only [List.map_map]
      apply List.map_congr_left
      intro r _
      simp only [Function.comp]
      split <;> rfl
    · have hm : m ∈ db.rows.filter (hitsRecord id uid) := by rw [hf]; simp
      rw [List.mem_filter] at hm
      exact ⟨m, hm.1, (hitsRecord_iff id uid m).mp hm.2⟩

/-- A successful update of record 1 next to record 2: only record 1 changes,
and the omitted notes become absent. -/
theorem update_replaces_fields_witness :
    putRecord ⟨[⟨1, 1, "Ann", 50, none, none, some "old", none⟩,
        ⟨2, 1, "Bob", 40, none, none, none, none⟩], 3⟩ 1 1
        (RecordInput.toBody ⟨"Anna", 51, some "120/80", some 180, none, some "2024-01-02"⟩) =
      ({ status := 200, body := .message "Record updated successfully" },
        ⟨[⟨1, 1, "Anna", 51, some "120/80", some 180, none, some "2024-01-02"⟩,
          ⟨2, 1, "Bob", 40, none, none, none, none⟩], 3⟩) :=
  (update_replaces_fields ⟨[⟨1, 1, "Ann", 50, none, none, some "old", none⟩,
      ⟨2, 1, "Bob", 40, none, none, none, none⟩], 3⟩ 1 1
    ⟨"Anna", 51, some "120/80", some 180, none, some "2024-01-02"⟩ (by decide) (by decide)).1

/-- C13 at the searches "_" and "%": the one record, named "Ann" and without
notes, contains neither text, yet both searches return it, the characters
being wildcards of LIKE; the plain search "an" returns it and "bo" does not. -/
theorem list_search_wildcards_match :
    listRecords ⟨[⟨1, 1, "Ann", 50, none, none, none, none⟩], 2⟩ 1 (some "_") =
      [⟨1, 1, "Ann", 50, none, none, none, none⟩] ∧
    matchesSearchText "_" ⟨1, 1, "Ann", 50, none, none, none, none⟩ = false ∧
    listRecords ⟨[⟨1, 1, "Ann", 50, none, none, none, none⟩], 2⟩ 1 (some "%") =
      [⟨1, 1, "Ann", 50, none, none, none, none⟩] ∧
    matchesSearchText "%" ⟨1, 1, "Ann", 50, none, none, none, none⟩ = false ∧
    listRecords ⟨[⟨1, 1, "Ann", 50, none, none, none, none⟩], 2⟩ 1 (some "an") =
      [⟨1, 1, "Ann", 50, none, none, none, none⟩] ∧
    listRecords ⟨[⟨1, 1, "Ann", 50, none, none, none, none⟩], 2⟩ 1 (some "bo") = [] := by
  refine ⟨by decide, by decide, by decide, by decide, by decide, by decide⟩

/-- C14: the sequence `list` returns is a permutation of the rows its WHERE
clause matches (all the user's rows when there is no search), sorted by date
descending, rows without a date after all dated rows and equal dates by id
descending; the records dated 2024-01-01 (id 5) and 2024-01-02 (id 3) come as
id 3 then id 5. -/
theorem list_is_sorted_permutation (db : Db) (uid : Nat) (search : Option String) :
    (listRecords db uid search).Perm
      (db.rows.filter (fun r => listCondition uid search r == some true)) ∧
    (listRecords db uid none).Perm (db.rows.filter (fun r => decide (r.user_id = uid))) ∧
    (listRecords db uid search).Pairwise (fun a b =>
      (a.date = none → b.date = none) ∧
      (∀ x y : String, a.date = some x → b.date = some y → ¬ x < y) ∧
      (a.date = b.date → b.id ≤ a.id)) ∧
    listRecords ⟨[⟨5, uid, "Ann", 50, none, none, none, some "2024-01-01"⟩,
        ⟨3, uid, "Bob", 40, none, none, none, some "2024-01-02"⟩], 6⟩ uid none =
      [⟨3, uid, "Bob", 40, none, none, none, some "2024-01-02"⟩,
       ⟨5, uid, "Ann", 50, none, none, none, some "2024-01-01"⟩] := by
  refine ⟨List.perm_insertionSort _ _, ?_, ?_, ?_⟩
  · unfold listRecords
    refine (List.perm_insertionSort _ _).trans ?_
    have : listCondition uid none = ownedBy uid := by
      funext r
      rfl
    rw [this, sqlWhere_ownedBy]
  · exact (listRecords_sorted db uid search).imp (fun {a b} h => listOrder_readable a b h)
  · have hw : sqlWhere (listCondition uid none)
        [⟨5, uid, "Ann", 50, none, none, none, some "2024-01-01"⟩,
         ⟨3, uid, "Bob", 40, none, none, none, some "2024-01-02"⟩] =
        [⟨5, uid, "Ann", 50, none, none, none, some "2024-01-01"⟩,
         ⟨3, uid, "Bob", 40, none, none, none, some "2024-01-02"⟩] := by
      simp [sqlWhere, listCondition, truthyText, ownedBy]
    unfold listRecords
    simp only [hw]
    rfl

/-- C15 at two rows at risk that share the date 2024-01-01, ids 3 and 5: the
risk query answers them as the table holds them, id 3 first when it was stored
first, whereas `list` answers id 5 first; with the same two rows stored the
other way round the risk query answers the other order. -/
theorem risks_equal_dates_unordered :
    riskQuery ⟨[⟨3, 1, "Ann", 50, none, some 210, none, some "2024-01-01"⟩,
        ⟨5, 1, "Bob", 40, none, some 220, none, some "2024-01-01"⟩], 6⟩ 1 =
      [⟨3, 1, "Ann", 50, none, some 210, none, some "2024-01-01"⟩,
       ⟨5, 1, "Bob", 40, none, some 220, none, some "2024-01-01"⟩] ∧
    listRecords ⟨[⟨3, 1, "Ann", 50, none, some 210, none, some "2024-01-01"⟩,
        ⟨5, 1, "Bob", 40, none, some 220, none, some "2024-01-01"⟩], 6⟩ 1 none =
      [⟨5, 1, "Bob", 40, none, some 220, none, some "2024-01-01"⟩,
       ⟨3, 1, "Ann", 50, none, some 210, none, some "2024-01-01"⟩] ∧
    riskQuery ⟨[⟨5, 1, "Bob", 40, none, some 220, none, some "2024-01-01"⟩,
        ⟨3, 1, "Ann", 50, none, some 210, none, some "2024-01-01"⟩], 6⟩ 1 =
      [⟨5, 1, "Bob", 40, none, some 220, none, some "2024-01-01"⟩,
       ⟨3, 1, "Ann", 50, none, some 210, none, some "2024-01-01"⟩] := by
  refine ⟨by decide, by decide, by decide⟩

/-! ## Authentication, registration and the client-side filter -/

/-- C16, as stated, fails: a token that verifies for the user id 42 is passed
on to the handler although no user exists at all. -/
theorem authenticate_does_not_look_up_user :
    authenticate (fun t => if t = "good" then some ⟨42, "ghost"⟩ else none)
        (some "Bearer good") = .next ⟨42, "ghost"⟩ ∧
    ¬ resolvesToUser [] ⟨42, "ghost"⟩ := by
  constructor
  · decide
  · rintro ⟨u, hu, _⟩
    cases hu

/-- C16, amended: the middleware answers 401, without calling the handler, when
the Authorization header is absent, when the text between its first and
second space is missing or empty, and when that token fails verification; in
every other case it sets `req.user` to the verified payload and calls `next`
once, whether or not a user with that id exists. -/
theorem authenticate_cases (verify : String → Option TokenClaims) :
    authenticate verify none = .answered 401 "No token provided" ∧
    (∀ h : String, (jsSplit h ' ').get? 1 = none ∨ (jsSplit h ' ').get? 1 = some "" →
      authenticate verify (some h) = .answered 401 "No token provided") ∧
    (∀ h t : String, (jsSplit h ' ').get? 1 = some t → t ≠ "" → verify t = none →
      authenticate verify (some h) = .answered 401 "Invalid or expired token") ∧
    (∀ (h t : String) (d : TokenClaims), (jsSplit h ' ').get? 1 = some t → t ≠ "" →
      verify t = some d → authenticate verify (some h) = .next d) ∧
    (∀ (h : String) (pre rest : List Char), h.data = pre ++ ' ' :: rest → ' ' ∉ pre →
      (jsSplit h ' ').get? 1 = some (String.mk (rest.takeWhile (fun c => c != ' ')))) ∧
    (∀ h : String, ' ' ∉ h.data → (jsSplit h ' ').get? 1 = none) ∧
    (∀ (a : Option String) (d : TokenClaims), authenticate verify a = .next d →
      ∃ h t, a = some h ∧ (jsSplit h ' ').get? 1 = some t ∧ t ≠ "" ∧ verify t = some d) := by
  refine ⟨rfl, ?_, ?_, ?_, jsSplit_second_piece, ?_, ?_⟩
  · intro h hh
    rw [authenticate_some]
    rcases hh with hh | hh <;> rw [hh]
    rfl
  · intro h t ht hne hv
    rw [authenticate_some, ht]
    simp only [hne, if_false, hv]
  · intro h t d ht hne hv
    rw [authenticate_some, ht]
    simp only [hne, if_false, hv]
  · intro h hh
    unfold jsSplit
    rw [splitChars_of_not_mem _ _ hh]
    rfl
  · intro a d hd
    cases a with
    | none => exact absurd hd (by simp [authenticate, truthyText])
    | some h =>
      rw [authenticate_some] at hd
      cases ht : (jsSplit h ' ').get? 1 with
      | none => rw [ht] at hd; cases hd
      | some t =>
        rw [ht] at hd
        by_cases hne : t = ""
        · simp only [hne, if_true] at hd
          cases hd
        · simp only [hne, if_false] at hd
          cases hv : verify t with
          | none => rw [hv] at hd; cases hd
          | some d' =>
            rw [hv] at hd
            cases hd
            exact ⟨h, t, rfl, ht, hne, hv⟩

/-- The four outcomes with a verifier that accepts the token "good" only. -/
theorem authenticate_cases_witness :
    authenticate (fun t => if t = "good" then some ⟨7, "ann"⟩ else none) (some "Bearer") =
      .answered 401 "No token provided" ∧
    authenticate (fun t => if t = "good" then some ⟨7, "ann"⟩ else none) (some "Bearer bad") =
      .answered 401 "Invalid or expired token" ∧
    authenticate (fun t => if t = "good" then some ⟨7, "ann"⟩ else none) (some "Bearer good") =
      .next ⟨7, "ann"⟩ :=
  ⟨(authenticate_cases (fun t => if t = "good" then some ⟨7, "ann"⟩ else none)).2.1 "Bearer"
      (Or.inl (by decide)),
   (authenticate_cases (fun t => if t = "good" then some ⟨7, "ann"⟩ else none)).2.2.1
      "Bearer bad" "bad" (by decide) (by decide) (by decide),
   (authenticate_cases (fun t => if t = "good" then some ⟨7, "ann"⟩ else none)).2.2.2.1
      "Bearer good" "good" ⟨7, "ann"⟩ (by decide) (by decide) (by decide)⟩

/-- C17: `/register` answers 400 and issues no insert, the `users` table staying
as it is, when the username or the password is missing or empty or the
password is a string of fewer than 6 characters (counted as JavaScript counts
them, in UTF-16 code units); with a non-empty username and a password of
exactly 6 it passes the validation and issues the insert of the username with
the hashed password, which adds the user and answers 200, or answers 409 when
the name is taken. -/
theorem register_validation (hash : String → String) (users : List User) (b : RegisterBody) :
    ((truthy b.username = false ∨ truthy b.password = false ∨
        ∃ s, b.password = .str s ∧ jsLength s < 6) →
      (∃ m, registerStep hash b = .answer { status := 400, body := .message m }) ∧
      ∃ m, register hash users b = ({ status := 400, body := .message m }, users)) ∧
    (∀ u s : String, b.username = .str u → u ≠ "" → b.password = .str s → jsLength s = 6 →
      registerStep hash b = .insert (.str u) (hash s) ∧
      register hash users b = insertUser users (.str u) (hash s) ∧
      (register hash users b).1.status ≠ 400 ∧
      ((∀ x ∈ users, x.username.data.map foldCase ≠ u.data.map foldCase) →
        ∃ id, register hash users b =
          ({ status := 200, body := .message "User created successfully" },
            users ++ [{ id := id, username := u, password := hash s }])) ∧
      ((∃ x ∈ users, x.username.data.map foldCase = u.data.map foldCase) →
        register hash users b =
          ({ status := 409, body := .message "Username already exists" }, users))) ∧
    (∀ s : String, (∀ c ∈ s.data, c.toNat < 0x10000) → jsLength s = s.length) := by
  refine ⟨?_, ?_, ?_⟩
  · intro h
    have hstep : ∃ m, registerStep hash b = .answer { status := 400, body := .message m } := by
      unfold registerStep
      rcases h with h | h | ⟨s, hs, hlen⟩
      · exact ⟨"Username and password required", by simp [h]⟩
      · exact ⟨"Username and password required", by simp [h]⟩
      · by_cases hv : (!truthy b.username || !truthy b.password) = true
        · exact ⟨"Username and password required", by rw [if_pos hv]⟩
        · exact ⟨"Password must be at least 6 characters",
            by rw [if_neg hv, hs]; simp [lengthBelow, hlen]⟩
    refine ⟨hstep, ?_⟩
    obtain ⟨m, hm⟩ := hstep
    refine ⟨m, ?_⟩
    unfold register
    rw [hm]
  · intro u s hu hune hp hlen
    have hstep : registerStep hash b = .insert (.str u) (hash s) := by
      unfold registerStep
      have hs : s ≠ "" := by
        intro e
        rw [e] at hlen
        exact absurd hlen (by decide)
      have hut : truthy (.str u) = true := by simp [truthy, hune]
      have hpt : truthy (.str s) = true := by simp [truthy, hs]
      have hlb : lengthBelow (.str s) 6 = false := by simp [lengthBelow, hlen]
      rw [hp, hu]
      simp only [hut, hpt, hlb, Bool.not_true, Bool.or_self, Bool.false_eq_true, if_false]
    have hreg : register hash users b = insertUser users (.str u) (hash s) := by
      unfold register
      rw [hstep]
    have hfresh : (∀ x ∈ users, x.username.data.map foldCase ≠ u.data.map foldCase) →
        insertUser users (.str u) (hash s) =
          ({ status := 200, body := .message "User created successfully" },
            users ++ [{ id := (users.map (fun x => x.id)).foldl max 0 + 1, username := u,
                        password := hash s }]) := by
      intro hf
      unfold insertUser
      have hany : users.any
          (fun x => x.username.data.map foldCase == u.data.map foldCase) = false := by
        rw [List.any_eq_false]
        intro x hx
        simpa using hf x hx
      simp [toTextColumn, hany]
    have htaken : (∃ x ∈ users, x.username.data.map foldCase = u.data.map foldCase) →
        insertUser users (.str u) (hash s) =
          ({ status := 409, body := .message "Username already exists" }, users) := by
      intro ht
      unfold insertUser
      have hany : users.any
          (fun x => x.username.data.map foldCase == u.data.map foldCase) = true := by
        rw [List.any_eq_true]
        obtain ⟨x, hx, he⟩ := ht
        exact ⟨x, hx, by simpa using he⟩
      simp [toTextColumn, hany]
    refine ⟨hstep, hreg, ?_, ?_, ?_⟩
    · rw [hreg]
      by_cases ht : ∃ x ∈ users, x.username.data.map foldCase = u.data.map foldCase
      · rw [htaken ht]; simp
      · rw [hfresh (fun x hx e => ht ⟨x, hx, e⟩)]; simp
    · intro hf
      exact ⟨_, by rw [hreg, hfresh hf]⟩
    · intro ht
      rw [hreg, htaken ht]
  · intro s hs
    have hlist : ∀ cs : List Char, (∀ c ∈ cs, c.toNat < 0x10000) →
        (cs.map (fun c => if c.toNat < 0x10000 then 1 else 2)).sum = cs.length := by
      intro cs
      induction cs with
      | nil => intro _; rfl
      | cons c cs ih =>
        intro hcs
        have hc : c.toNat < 0x10000 := hcs c (by simp)
        have ih' := ih (fun x hx => hcs x (List.mem_cons_of_mem _ hx))
        rw [List.map_cons, List.sum_cons, List.length_cons, ih', if_pos hc]
        omega
    exact hlist s.data hs

/-- The validation for the username "bob" on an empty table: the password
"12345" is refused with 400 and nothing is inserted, the password "123456" is
hashed and the user is added with 200. -/
theorem register_validation_witness :
    ((∃ m, registerStep (fun s => "hash:" ++ s) ⟨.str "bob", .str "12345"⟩ =
        .answer { status := 400, body := .message m }) ∧
      ∃ m, register (fun s => "hash:" ++ s) [] ⟨.str "bob", .str "12345"⟩ =
        ({ status := 400, body := .message m }, [])) ∧
    (∃ id, register (fun s => "hash:" ++ s) [] ⟨.str "bob", .str "123456"⟩ =
      ({ status := 200, body := .message "User created successfully" },
        [] ++ [{ id := id, username := "bob", password := "hash:" ++ "123456" }])) :=
  ⟨(register_validation (fun s => "hash:" ++ s) [] ⟨.str "bob", .str "12345"⟩).1
      (Or.inr (Or.inr ⟨"12345", rfl, by decide⟩)),
   ((register_validation (fun s => "hash:" ++ s) [] ⟨.str "bob", .str "123456"⟩).2.1
      "bob" "123456" rfl (by decide) rfl (by decide)).2.2.2.1
      (fun x hx => by cases hx)⟩

/-- C18: `filteredRecords` never throws and is a sub-list of `allRecords` in the
original order: the whole list when the search text is empty or white space
only, otherwise exactly the records whose lower-cased name, or lower-cased
notes when there are notes, contains the lower-cased search text; filtering the
result again with the same text changes nothing. -/
theorem filtered_records_is_filter (lower : String → String) (hl : lower "" = "")
    (allRecords : List Row) (q : String) :
    ∃ l, filteredRecords lower allRecords q = .ok l ∧ l.Sublist allRecords ∧
      ((∀ c ∈ q.data, isStrWhiteSpace c = true) → l = allRecords) ∧
      (¬ (∀ c ∈ q.data, isStrWhiteSpace c = true) →
        l = allRecords.filter (fun r =>
          jsIncludes (lower r.patient_name) (lower q) ||
            (match r.notes with
             | some n => jsIncludes (lower n) (lower q)
             | none => false))) ∧
      filteredRecords lower l q = .ok l := by
  have hf : ∀ rows : List Row, filteredRecords lower rows q = .ok
      (rows.filter (fun r =>
        if jsTrim q = "" then true
        else jsIncludes (lower r.patient_name) (lower q) ||
          (match r.notes with
           | some n => jsIncludes (lower n) (lower q)
           | none => false))) := by
    intro rows
    unfold filteredRecords
    exact filterExcept_ok _ _ (recordMatches_eq lower hl q) rows
  refine ⟨_, hf allRecords, List.filter_sublist _, ?_, ?_, ?_⟩
  · intro hw
    have ht := (jsTrim_eq_empty_iff q).mpr hw
    simp [ht]
  · intro hw
    have ht : ¬ jsTrim q = "" := fun e => hw ((jsTrim_eq_empty_iff q).mp e)
    simp [ht]
  · rw [hf, List.filter_filter]
    simp

/-- The filter on two records with the text "AN" and ASCII lower-casing: both
the name "Ann" and the notes "likes ann" match. -/
theorem filtered_records_is_filter_witness :
    ∃ l, filteredRecords (fun s => String.mk (s.data.map Char.toLower))
        [⟨1, 1, "Ann", 50, none, none, none, none⟩,
         ⟨2, 1, "Bob", 40, none, none, some "likes ann", none⟩,
         ⟨3, 1, "Cy", 30, none, none, none, none⟩] "AN" = .ok l ∧
      l.Sublist [⟨1, 1, "Ann", 50, none, none, none, none⟩,
         ⟨2, 1, "Bob", 40, none, none, some "likes ann", none⟩,
         ⟨3, 1, "Cy", 30, none, none, none, none⟩] ∧
      l = [⟨1, 1, "Ann", 50, none, none, none, none⟩,
         ⟨2, 1, "Bob", 40, none, none, some "likes ann", none⟩] := by
  obtain ⟨l, h1, h2, _, h4, _⟩ :=
    filtered_records_is_filter (fun s => String.mk (s.data.map Char.toLower)) rfl
      [⟨1, 1, "Ann", 50, none, none, none, none⟩,
       ⟨2, 1, "Bob", 40, none, none, some "likes ann", none⟩,
       ⟨3, 1, "Cy", 30, none, none, none, none⟩] "AN"
  refine ⟨l, h1, h2, ?_⟩
  rw [h4 (by decide)]
  decide

/-! ## Agreement of the risk rules across the handlers -/

/-- C19 at the blood pressures "100" and "120/80/95" without cholesterol: the
risk query selects both rows, reading 100 and 95 after the last '/', while the
flag mapping reads the piece after the first '/', nothing and 80, so both
entries of `risks` carry an empty list of flags. -/
theorem selected_row_without_flags :
    riskQuery ⟨[⟨1, 1, "Ann", 50, some "100", none, none, none⟩], 2⟩ 1 =
      [⟨1, 1, "Ann", 50, some "100", none, none, none⟩] ∧
    bpPartSql ⟨1, 1, "Ann", 50, some "100", none, none, none⟩ (-1) = some 100 ∧
    jsDiastolic ⟨1, 1, "Ann", 50, some "100", none, none, none⟩ = none ∧
    flags ⟨1, 1, "Ann", 50, some "100", none, none, none⟩ = .ok [] ∧
    (analysis ⟨[⟨1, 1, "Ann", 50, some "100", none, none, none⟩], 2⟩ 1).map
        (fun resp => resp.risks.map (fun e => e.flags)) = .ok [[]] ∧
    riskQuery ⟨[⟨2, 1, "Bob", 40, some "120/80/95", none, none, none⟩], 3⟩ 1 =
      [⟨2, 1, "Bob", 40, some "120/80/95", none, none, none⟩] ∧
    flags ⟨2, 1, "Bob", 40, some "120/80/95", none, none, none⟩ = .ok [] := by
  refine ⟨by decide, by decide, by decide, rfl, rfl, by decide, rfl⟩

/-- C20 at the blood pressures "150abc/80" and "1e3/80": for the first the flag
mapping reads 150 and names the systolic condition while the PDF report reads
`NaN` and prints no risk line; for the second the flag mapping reads 1 and
names nothing while the PDF report reads 1000 and prints the systolic line. -/
theorem pdf_and_flags_disagree :
    flags ⟨1, 1, "Ann", 50, some "150abc/80", none, none, none⟩ = .ok ["High Systolic BP"] ∧
    pdfRisks ⟨1, 1, "Ann", 50, some "150abc/80", none, none, none⟩ = .ok [] ∧
    flags ⟨1, 1, "Ann", 50, some "1e3/80", none, none, none⟩ = .ok [] ∧
    pdfRisks ⟨1, 1, "Ann", 50, some "1e3/80", none, none, none⟩ =
      .ok ["⚠ High Systolic Blood Pressure (>140)"] ∧
    ["High Systolic BP"].filterMap flagKind = [RiskKind.systolic] ∧
    ["⚠ High Systolic Blood Pressure (>140)"].filterMap pdfLineKind = [RiskKind.systolic] ∧
    parseInt "150abc" = some 150 ∧ jsNumber "150abc" = .nan ∧
    parseInt "1e3" = some 1 ∧ jsNumber "1e3" = .finite 1 3 ∧
    (flags ⟨1, 1, "Ann", 50, some "150/95", some 210, none, none⟩).map
        (fun l => l.filterMap flagKind) =
      (pdfRisks ⟨1, 1, "Ann", 50, some "150/95", some 210, none, none⟩).map
        (fun l => l.filterMap pdfLineKind) := by
  refine ⟨rfl, rfl, rfl, rfl, by decide, by decide, by decide, by decide, by decide,
    by decide, rfl⟩

/-! ## The "High Risk" card and the CSV row -/

/-- C21 at the one record with cholesterol 210 and blood pressure "150/95": it
is counted in `high_cholesterol_count` and in `high_bp_count`, so the card
shows 2 for a total of 1 record, while the list of risks has one entry; in
general the card shows at most twice the total. -/
theorem high_risk_card_counts_twice :
    highRiskCard (some (dashboardStats
      ⟨[⟨1, 1, "Ann", 50, some "150/95", some 210, none, none⟩], 2⟩ 1)) = 2 ∧
    (dashboardStats ⟨[⟨1, 1, "Ann", 50, some "150/95", some 210, none, none⟩], 2⟩
      1).total_records = 1 ∧
    (riskQuery ⟨[⟨1, 1, "Ann", 50, some "150/95", some 210, none, none⟩], 2⟩ 1).length = 1 ∧
    highRiskCard none = 0 ∧
    (∀ (db : Db) (uid : Nat), highRiskCard (some (dashboardStats db uid)) ≤
      2 * (dashboardStats db uid).total_records) := by
  refine ⟨by decide, by decide, by decide, rfl, ?_⟩
  intro db uid
  have hcard : ∀ st : DashboardStats,
      highRiskCard (some st) = st.high_cholesterol_count + st.high_bp_count := by
    intro st
    unfold highRiskCard
    simp only [Option.map_some']
    have h0 : ∀ n : Nat, (if n ≠ 0 then n else 0) = n := by
      intro n
      by_cases hn : n = 0 <;> simp [hn]
    rw [h0, h0]
  rw [hcard]
  unfold dashboardStats
  simp only []
  rw [sqlCount_caseWhen, sqlCount_caseWhen]
  have h1 := List.countP_le_length (fun r : Row => decide (sqlGt r.cholesterol 200 = some true))
    (l := sqlWhere (ownedBy uid) db.rows)
  have h2 := List.countP_le_length (fun r : Row => decide (sqlGt (bpPartSql r 1) 140 = some true))
    (l := sqlWhere (ownedBy uid) db.rows)
  omega

/-- C22 at a blood pressure holding a comma and at a name holding a double
quote: the row for "120,80" reads back as eight fields, the row for the name
Ann "Annie" is rejected by the quoting rules, while a row whose notes hold a
double quote and a comma reads back as its seven values. -/
theorem csv_row_breaks_on_comma_and_quote :
    csvRow ⟨2, 1, "Ann", 50, some "120,80", none, none, none⟩ =
      String.mk ("2,".data ++ [dquote] ++ "Ann".data ++ [dquote] ++ ",50,120,80,,,".data ++
        [dquote, dquote]) ∧
    readCsvLine (csvRow ⟨2, 1, "Ann", 50, some "120,80", none, none, none⟩) =
      some ["2", "Ann", "50", "120", "80", "", "", ""] ∧
    expectedCsvFields ⟨2, 1, "Ann", 50, some "120,80", none, none, none⟩ =
      ["2", "Ann", "50", "120,80", "", "", ""] ∧
    readCsvLine (csvRow ⟨3, 1, String.mk ("Ann ".data ++ [dquote] ++ "Annie".data ++ [dquote]),
      50, none, none, none, none⟩) = none ∧
    readCsvLine (csvRow ⟨1, 1, "Ann", 50, some "150/95", some 210,
        some (String.mk ("said ".data ++ [dquote] ++ "ok".data ++ [dquote] ++
          ", went home".data)), some "2024-01-02"⟩) =
      some (expectedCsvFields ⟨1, 1, "Ann", 50, some "150/95", some 210,
        some (String.mk ("said ".data ++ [dquote] ++ "ok".data ++ [dquote] ++
          ", went home".data)), some "2024-01-02"⟩) := by
  refine ⟨by decide, by decide, by decide, by decide, by decide⟩

end MedicalApp
